import Mathlib

/-!
# winappCli samples: native interop shims

A shallow embedding of

* `src/sample/native/native.cc` (Node.js addon: `ShowNotification`,
  `CallPhiSilica`, `SetActionAvailability`, `CreateActionRuntime`), and
* `src/samples/flutter-app/windows/runner/winapp_sdk_plugin.cpp`
  (Flutter method-channel handler).

The C++ control flow (argument guards, `try`/`catch` clauses in their textual
order, the order of the statements) is transcribed statement by statement.
The Windows platform and the host libraries are outside the repository: every
call into them is an oracle, a field of a structure that says what the call
returns or raises, and every such call is written to an effect log so that
"before any platform call" and "after the terminal callback" are statements
about list positions.
-/

namespace WinappCli

/-! ## C++ exceptions and effect logs -/

/-- The exception kinds that the `catch` clauses of the sources tell apart.
`winrt::hresult_error` is not derived from `std::exception`, so the three
kinds are disjoint. -/
inductive Exc where
  /-- A `winrt::hresult_error`; `message` is `winrt::to_string(e.message())`. -/
  | hresult_error (message : String)
  /-- A `std::exception` (for instance `std::bad_alloc`); `what` is `e.what()`. -/
  | std_exception (what : String)
  /-- Anything else, reachable only through `catch (...)`. -/
  | unknown
  deriving DecidableEq, Repr

/-- A wide string (`std::wstring`, `hstring`): its UTF-16 code units. -/
abbrev WString := List Nat

/-- A narrow string (`std::string`): its bytes. -/
abbrev NString := List Nat

/-- The result of a call that may raise. -/
abbrev Outcome (α : Type) := Except Exc α

/-- How a piece of C++ stops short of its end: a C++ exception leaves it, or
the process is aborted (a failed check inside the host, `std::terminate`),
which no `catch` clause sees. -/
inductive Stop where
  | raised (e : Exc)
  | abort
  deriving DecidableEq, Repr

instance instDecidableEqExcept {ε α : Type} [DecidableEq ε] [DecidableEq α] :
    DecidableEq (Except ε α)
  | .ok a, .ok b => if h : a = b then isTrue (by rw [h]) else isFalse (by intro h2; cases h2; exact h rfl)
  | .error a, .error b => if h : a = b then isTrue (by rw [h]) else isFalse (by intro h2; cases h2; exact h rfl)
  | .ok _, .error _ => isFalse (by intro h; cases h)
  | .error _, .ok _ => isFalse (by intro h; cases h)

/-- An oracle outcome as the way the call ends. -/
def Outcome.toRun {α : Type} : Outcome α → Except Stop α
  | .ok a => .ok a
  | .error e => .error (Stop.raised e)

/-! ## Flutter plugin (`winapp_sdk_plugin.cpp`) -/

/-- What the handler does with its `MethodResult`. -/
inductive Reply where
  /-- The call `result->Success(EncodableValue(std::string))`. -/
  | SuccessString (value : String)
  /-- The call `result->Success(EncodableValue(bool))`. -/
  | SuccessBool (value : Bool)
  /-- The call `result->Error(code, message)`. -/
  | Error (code : String) (message : String)
  /-- The call `result->NotImplemented()`. -/
  | NotImplemented
  deriving DecidableEq, Repr

/-- The Windows App SDK calls made by the Flutter handler, each as an oracle
for the one run under study. -/
structure FlutterPlatform where
  /-- The call `RuntimeInfo::AsString()` followed by `winrt::to_string`. -/
  RuntimeInfo_AsString : Outcome String
  /-- The call `AppNotificationBuilder()`. -/
  AppNotificationBuilder : Outcome Unit
  /-- The call `builder.AddText(text)`. -/
  AddText : String → Outcome Unit
  /-- The call `builder.BuildNotification()`. -/
  BuildNotification : Outcome Unit
  /-- The call `AppNotificationManager::Default()`. -/
  AppNotificationManager_Default : Outcome Unit
  /-- The call `manager.Show(notification)`. -/
  Show : Outcome Unit

/-- The `try` block of the `showNotification` branch, lines 36-45: the
platform calls in order, stopping at the first one that raises. -/
def flutterShowNotificationBody (p : FlutterPlatform) : Outcome Unit := do
  p.AppNotificationBuilder
  p.AddText "Hello from Flutter!"
  p.AddText "This notification is powered by the Windows App SDK."
  p.BuildNotification
  p.AppNotificationManager_Default
  p.Show

/-- The exception raised by the first call of a sequence that raises, given
the outcomes of the calls in order. -/
def firstFailure : List (Outcome Unit) → Option Exc
  | [] => none
  | .ok _ :: rest => firstFailure rest
  | .error e :: _ => some e

/-- The method-call handler installed by `RegisterWinAppSdkPlugin`
(lines 17-56): the list of calls made on `result`. -/
def methodCallHandler (p : FlutterPlatform) (method_name : String) : List Reply :=
  if method_name = "getRuntimeVersion" then
    match p.RuntimeInfo_AsString with
    | .ok versionStr => [Reply.SuccessString versionStr]
    | .error (Exc.hresult_error m) => [Reply.Error "WINRT_ERROR" m]
    | .error _ => [Reply.Error "UNKNOWN_ERROR" "Failed to get Windows App Runtime version"]
  else if method_name = "showNotification" then
    match flutterShowNotificationBody p with
    | .ok _ => [Reply.SuccessBool true]
    | .error (Exc.hresult_error m) => [Reply.Error "WINRT_ERROR" m]
    | .error _ => [Reply.Error "UNKNOWN_ERROR" "Failed to show notification"]
  else
    [Reply.NotImplemented]

/-! ## Node addon (`native.cc`): values, effects, programs -/

/-- A JavaScript value as far as the type tests of `Napi::Value` tell values
apart. -/
inductive Value where
  | undefined
  | null
  | boolean (b : Bool)
  | number (n : Int)
  | string (s : String)
  | function (id : Nat)
  | object
  deriving DecidableEq, Repr

/-- The test `Napi::Value::IsString()`. -/
def Value.IsString : Value → Bool
  | .string _ => true
  | _ => false

/-- The test `Napi::Value::IsBoolean()`. -/
def Value.IsBoolean : Value → Bool
  | .boolean _ => true
  | _ => false

/-- The test `Napi::Value::IsFunction()`. -/
def Value.IsFunction : Value → Bool
  | .function _ => true
  | _ => false

/-- The operator `info[i]` of `Napi::CallbackInfo`: the argument, or
`undefined` past the end of the argument list. -/
def arg (info : List Value) (i : Nat) : Value :=
  info.getD i Value.undefined

/-- The UTF-8 bytes of a JavaScript string: what `Napi::String` converts to
when it is assigned to a `std::string`. -/
def Utf8Value (s : String) : NString :=
  (s.data.flatMap String.utf8EncodeChar).map UInt8.toNat

/-- A wide string literal `L"..."` of the source (all of them are ASCII). -/
def L (s : String) : WString :=
  s.data.map Char.toNat

/-- The call site of a `tsfn.BlockingCall` in the worker of `CallPhiSilica`.
The JavaScript callback only receives the strings; the site is kept in the
log to tell a progress fragment from the final text. -/
inductive Site where
  /-- Line 162: `"ready"`. -/
  | ready
  /-- Line 175, inside the progress handler. -/
  | progress
  /-- Line 184: the final response. -/
  | final
  /-- Line 191: `"not ready"`. -/
  | notReady
  /-- Line 201, inside the `catch` clause: `"error"` and the message. -/
  | error
  deriving DecidableEq, Repr

/-- One invocation of the JavaScript callback: `jsCallback.Call({...})`. -/
structure Callback where
  site : Site
  args : List String
  deriving DecidableEq, Repr

/-- The terminal invocations: final text, `"not ready"`, or error. -/
def Callback.isTerminal (c : Callback) : Bool :=
  match c.site with
  | .final => true
  | .notReady => true
  | .error => true
  | .ready => false
  | .progress => false

/-- The two JavaScript error classes that the addon throws. -/
inductive JsErrorKind where
  /-- The class `Napi::Error`. -/
  | Error
  /-- The class `Napi::TypeError`. -/
  | TypeError
  deriving DecidableEq, Repr

/-- The calls into the Windows platform made by `native.cc`. -/
inductive PlatformCall where
  | CreateToastNotifier
  | XmlDocument
  | LoadXml (xml : WString)
  | ToastNotification
  | Show
  | GetReadyState
  | CreateAsync
  | LanguageModelOptions
  | TopK (k : Nat)
  | Temperature (literal : String)
  | GenerateResponseAsync (prompt : WString)
  | Progress
  | get
  | CoCreateInstance
  | SetActionAvailability (name : WString) (isAvailable : Bool)
  | Close
  deriving DecidableEq, Repr

/-- What a run of an export does to the world outside it, in order. -/
inductive Effect where
  /-- A call into the Windows platform (logged when the call is made, whether
  it returns or raises). -/
  | platform (c : PlatformCall)
  /-- The statement `Napi::...::New(env, message).ThrowAsJavaScriptException()`
  of the source. -/
  | ThrowAsJavaScriptException (kind : JsErrorKind) (message : String)
  /-- A JavaScript exception left pending by node-addon-api itself: what its
  `NAPI_THROW_IF_FAILED` does in a build without C++ exceptions before it
  returns a default value. -/
  | pendingException (kind : JsErrorKind) (message : String)
  /-- The call `Napi::ThreadSafeFunction::New(env, callback, ...)`. -/
  | ThreadSafeFunction_New (callback : Value)
  /-- The statement `std::thread(...).detach()`. -/
  | thread
  /-- The call `tsfn.BlockingCall(...)` whose lambda invokes the callback. -/
  | BlockingCall (c : Callback)
  /-- The call `tsfn.Release()`. -/
  | Release
  deriving DecidableEq, Repr

/-- The result of running a piece of C++: the effects in order, the value
returned or the way the run stopped, and the platform state afterwards. -/
structure Step (σ α : Type) where
  log : List Effect
  out : Except Stop α
  state : σ

/-- A piece of C++ run against a platform in state `σ`. -/
def Prog (σ α : Type) : Type := σ → Step σ α

/-- Falling through with a value. -/
def Prog.pure {σ α : Type} (a : α) : Prog σ α :=
  fun s => ⟨[], .ok a, s⟩

/-- Sequencing of statements: an exception or an abort in the first ends the
sequence. -/
def Prog.bind {σ α β : Type} (x : Prog σ α) (f : α → Prog σ β) : Prog σ β :=
  fun s =>
    let r := x s
    match r.out with
    | .ok a =>
      let r2 := f a r.state
      ⟨r.log ++ r2.log, r2.out, r2.state⟩
    | .error e => ⟨r.log, .error e, r.state⟩

instance instMonadProg {σ : Type} : Monad (Prog σ) where
  pure := Prog.pure
  bind := Prog.bind

/-- One effect that cannot raise. -/
def emit {σ : Type} (e : Effect) : Prog σ Unit :=
  fun s => ⟨[e], .ok (), s⟩

/-- An expression that yields a value or raises, with no effect on the log. -/
def compute {σ α : Type} (r : Outcome α) : Prog σ α :=
  fun s => ⟨[], r.toRun, s⟩

/-- The abort of the process. -/
def abort {σ α : Type} : Prog σ α :=
  fun s => ⟨[], .error Stop.abort, s⟩

/-- A platform call whose outcome is given by an oracle. -/
def call {σ α : Type} (c : PlatformCall) (r : Outcome α) : Prog σ α :=
  fun s => ⟨[Effect.platform c], r.toRun, s⟩

/-- A platform call that reads and changes the platform state. -/
def callS {σ α : Type} (c : PlatformCall) (f : σ → Outcome α × σ) : Prog σ α :=
  fun s => ⟨[Effect.platform c], (f s).1.toRun, (f s).2⟩

/-- The statement `try { body } catch ...`: `handler e` is the clause that
catches `e`, or `none` when no clause does and `e` leaves the statement. An
abort is not an exception and passes every clause. -/
def tryCatch {σ α : Type} (body : Prog σ α) (handler : Exc → Option (Prog σ α)) : Prog σ α :=
  fun s =>
    let r := body s
    match r.out with
    | .ok _ => r
    | .error Stop.abort => r
    | .error (Stop.raised e) =>
      match handler e with
      | some h =>
        let r2 := h r.state
        ⟨r.log ++ r2.log, r2.out, r2.state⟩
      | none => r

/-- The callback invocations of a log, in order. -/
def callbacks : List Effect → List Callback
  | [] => []
  | Effect.BlockingCall c :: rest => c :: callbacks rest
  | _ :: rest => callbacks rest

/-- The platform calls of a log, in order. -/
def platformCalls : List Effect → List PlatformCall
  | [] => []
  | Effect.platform c :: rest => c :: platformCalls rest
  | _ :: rest => platformCalls rest

/-- A `Napi::ThreadSafeFunction` object: one that holds a thread-safe
function created from the callback, or the empty one (default constructed,
its handle null) that `New` returns when the creation failed and the library
does not raise. -/
inductive ThreadSafeFunction where
  | created
  | empty
  deriving DecidableEq, Repr

/-- What a call into node-addon-api does: the JavaScript exception it leaves
pending, if any, and the value it returns or the C++ exception it raises. A
build with C++ exceptions reports a failure by raising `Napi::Error` (a
`std::exception`); a build without them leaves the exception pending and
returns a default value. -/
structure LibraryResult (α : Type) where
  pending : Option (JsErrorKind × String)
  out : Outcome α

/-- The parts of the C++ toolchain and of node-addon-api that the sources
call and that are not in the repository. -/
structure Host where
  /-- Whether plain `char` is signed (the MSVC default) or unsigned (`/J`). -/
  char_is_signed : Bool
  /-- The conversion `std::string s = v.As<Napi::String>()` applied to a
  value that is not a string. -/
  Utf8Value_of_non_string : Value → LibraryResult NString
  /-- The conversion `bool b = v.As<Napi::Boolean>()` applied to a value that
  is not a boolean. -/
  BooleanValue_of_non_boolean : Value → LibraryResult Bool
  /-- The call `Napi::ThreadSafeFunction::New(env, callback, ...)`. -/
  ThreadSafeFunction_New : Value → LibraryResult ThreadSafeFunction
  /-- The call `converter.from_bytes` of
  `std::wstring_convert<std::codecvt_utf8_utf16<wchar_t>>`. -/
  from_bytes : NString → Outcome WString

/-- The conversion `std::string s = v.As<Napi::String>()`; `As` performs no
check of its own. -/
def asStdString (h : Host) (v : Value) : LibraryResult NString :=
  match v with
  | .string s => ⟨none, .ok (Utf8Value s)⟩
  | other => h.Utf8Value_of_non_string other

/-- The conversion `bool b = v.As<Napi::Boolean>()`; `As` performs no check
of its own. -/
def asBool (h : Host) (v : Value) : LibraryResult Bool :=
  match v with
  | .boolean b => ⟨none, .ok b⟩
  | other => h.BooleanValue_of_non_boolean other

/-- A call into node-addon-api: the exception it leaves pending goes to the
log, its value or C++ exception is the outcome. -/
def library {σ α : Type} (r : LibraryResult α) : Prog σ α :=
  fun s =>
    ⟨match r.pending with
      | some (kind, message) => [Effect.pendingException kind message]
      | none => [],
     r.out.toRun, s⟩

/-! ## `ShowNotification` (lines 64-100) -/

/-- The Windows toast calls of `ShowNotification`, each as an oracle. -/
structure ToastPlatform where
  /-- The call `ToastNotificationManager::CreateToastNotifier()`. -/
  CreateToastNotifier : Outcome Unit
  /-- The declaration `XmlDocument toastXml;` (activates the class). -/
  XmlDocument : Outcome Unit
  /-- The call `toastXml.LoadXml(xml)`: the XML parser. -/
  LoadXml : WString → Outcome Unit
  /-- The declaration `ToastNotification toast` from the parsed document. -/
  ToastNotification : Outcome Unit
  /-- The call `notifier.Show(toast)`. -/
  Show : Outcome Unit

/-- The conversion of one `char` to `wchar_t` (16 bits on Windows): a signed
`char` above 127 is negative and wraps modulo 2^16. -/
def wchar_of_char (char_is_signed : Bool) (b : Nat) : Nat :=
  if char_is_signed && decide (128 ≤ b) then (b + 65536 - 256) % 65536 else b % 65536

/-- The constructor `std::wstring(s.begin(), s.end())` on a narrow string:
every `char` becomes one `wchar_t`. -/
def wstring_of_range (char_is_signed : Bool) (s : NString) : WString :=
  s.map (wchar_of_char char_is_signed)

/-- Lines 76-80: the toast XML built from title and message. -/
def toastXml (char_is_signed : Bool) (title message : NString) : WString :=
  let xml := L "<toast><visual><binding template=\x27ToastGeneric\x27><text>"
  let xml := xml ++ wstring_of_range char_is_signed title
  let xml := xml ++ L "</text><text>"
  let xml := xml ++ wstring_of_range char_is_signed message
  let xml := xml ++ L "</text></binding></visual></toast>"
  xml

/-- The `try` block of `ShowNotification`, lines 68-91. -/
def ShowNotificationBody (h : Host) (p : ToastPlatform) (info : List Value) : Prog Unit Unit := do
  let title ← library (asStdString h (arg info 0))
  let message ← library (asStdString h (arg info 1))
  let xml := toastXml h.char_is_signed title message
  call PlatformCall.CreateToastNotifier p.CreateToastNotifier
  call PlatformCall.XmlDocument p.XmlDocument
  call (PlatformCall.LoadXml xml) (p.LoadXml xml)
  call PlatformCall.ToastNotification p.ToastNotification
  call PlatformCall.Show p.Show

/-- The export `ShowNotification`: the body and its three `catch` clauses. -/
def ShowNotification (h : Host) (p : ToastPlatform) (info : List Value) : Prog Unit Unit :=
  tryCatch (ShowNotificationBody h p info) fun e =>
    match e with
    | .hresult_error message =>
      some (emit (Effect.ThrowAsJavaScriptException JsErrorKind.Error message))
    | .std_exception what =>
      some (emit (Effect.ThrowAsJavaScriptException JsErrorKind.Error what))
    | .unknown =>
      some (emit (Effect.ThrowAsJavaScriptException JsErrorKind.Error "Unknown error occurred"))

/-! ## `CallPhiSilica` (lines 103-216) -/

/-- The enumeration `AIFeatureReadyState`. -/
inductive AIFeatureReadyState where
  | Ready
  | NotReady
  | NotSupportedOnCurrentSystem
  | DisabledByUser
  deriving DecidableEq, Repr

/-- The language-model calls of the worker, each as an oracle for the one
session under study. -/
structure LanguageModelPlatform where
  /-- The call `LanguageModel::GetReadyState()`. -/
  GetReadyState : Outcome AIFeatureReadyState
  /-- The call `LanguageModel::CreateAsync().get()`. -/
  CreateAsync : Outcome Unit
  /-- The call `LanguageModelOptions()`. -/
  LanguageModelOptions : Outcome Unit
  /-- The call `options.TopK(k)`. -/
  TopK : Nat → Outcome Unit
  /-- The call `options.Temperature(t)`, `t` as the literal of the source. -/
  Temperature : String → Outcome Unit
  /-- The call `languageModel.GenerateResponseAsync(prompt, options)`. -/
  GenerateResponseAsync : WString → Outcome Unit
  /-- The call `responseWait.Progress(handler)`: attaching the handler. -/
  Progress : Outcome Unit
  /-- The progress events that the operation raises to the attached handler
  before `get()` returns or raises, in the order raised; each is
  `winrt::to_string(progress.c_str())`. -/
  progressEvents : WString → List String
  /-- The call `responseWait.get()` followed by `winrt::to_string(response.Text())`. -/
  get : WString → Outcome String

/-- The call `tsfn.BlockingCall(...)`: on a created thread-safe function the
callback is queued for the JavaScript thread; on the empty one the null
handle fails the check of `napi_call_threadsafe_function` and the process is
aborted. -/
def BlockingCall {σ : Type} (tsfn : ThreadSafeFunction) (c : Callback) : Prog σ Unit :=
  match tsfn with
  | .created => emit (Effect.BlockingCall c)
  | .empty => abort

/-- The call `tsfn.Release()`, with the same check of the handle. -/
def Release {σ : Type} (tsfn : ThreadSafeFunction) : Prog σ Unit :=
  match tsfn with
  | .created => emit Effect.Release
  | .empty => abort

/-- The body of the progress handler, lines 173-177, for one event. -/
def progressHandler {σ : Type} (tsfn : ThreadSafeFunction) (responseString : String) :
    Prog σ Unit :=
  BlockingCall tsfn ⟨Site.progress, [responseString]⟩

/-- The progress events of one generation, each passed to the handler. -/
def raiseProgress {σ : Type} (tsfn : ThreadSafeFunction) : List String → Prog σ Unit
  | [] => Prog.pure ()
  | event :: rest => Prog.bind (progressHandler tsfn event) (fun _ => raiseProgress tsfn rest)

/-- The `try` block of the worker, lines 159-194, on the thread-safe function
and the wide prompt that the lambda captures. The progress events are raised
while `responseWait.get()` waits, so the callbacks of the handler come between
the start of that call and its outcome. -/
def WorkerBody (p : LanguageModelPlatform) (tsfn : ThreadSafeFunction) (widePrompt : WString) :
    Prog Unit Unit := do
  let state ← call PlatformCall.GetReadyState p.GetReadyState
  if state = AIFeatureReadyState.Ready then
    BlockingCall tsfn ⟨Site.ready, ["ready"]⟩
    call PlatformCall.CreateAsync p.CreateAsync
    call PlatformCall.LanguageModelOptions p.LanguageModelOptions
    call (PlatformCall.TopK 15) (p.TopK 15)
    call (PlatformCall.Temperature "0.9f") (p.Temperature "0.9f")
    call (PlatformCall.GenerateResponseAsync widePrompt) (p.GenerateResponseAsync widePrompt)
    call PlatformCall.Progress p.Progress
    emit (Effect.platform PlatformCall.get)
    raiseProgress tsfn (p.progressEvents widePrompt)
    let finalResponse ← compute (p.get widePrompt)
    BlockingCall tsfn ⟨Site.final, [finalResponse]⟩
  else
    BlockingCall tsfn ⟨Site.notReady, ["not ready"]⟩

/-- The lambda run by the detached thread, lines 144-208, with the
thread-safe function and the wide prompt that it captures: the `try` block,
its single `catch (const winrt::hresult_error&)` clause, then
`tsfn.Release()`. An exception that the clause does not catch leaves the
lambda (and `std::thread` then calls `std::terminate`). -/
def Worker (p : LanguageModelPlatform) (tsfn : ThreadSafeFunction) (widePrompt : WString) :
    Prog Unit Unit := do
  tryCatch (WorkerBody p tsfn widePrompt) fun e =>
    match e with
    | .hresult_error message =>
      some (BlockingCall tsfn
        ⟨Site.error, ["error", "Failed to make language model available: " ++ message]⟩)
    | _ => none
  Release tsfn

/-- The part of `CallPhiSilica` run on the caller: the argument guard of
line 108, the conversions, the creation of the thread-safe function and the
start of the thread. It returns the `Napi::String` handed back and, when the
thread was started, the thread-safe function and the wide prompt captured by
the lambda. -/
def CallPhiSilicaMain (h : Host) (info : List Value) :
    Prog Unit (String × Option (ThreadSafeFunction × WString)) :=
  if info.length < 1 || !(arg info 0).IsString then do
    emit (Effect.ThrowAsJavaScriptException JsErrorKind.TypeError "String arguments expected")
    return ("error", none)
  else do
    let prompt ← library (asStdString h (arg info 0))
    let callback := arg info 1
    emit (Effect.ThreadSafeFunction_New callback)
    let tsfn ← library (h.ThreadSafeFunction_New callback)
    let widePrompt ← compute (h.from_bytes prompt)
    emit Effect.thread
    return ("started", some (tsfn, widePrompt))

/-- One call of the export `callPhiSilica`: the run on the caller and, when a
thread was started, the run of the worker on it. -/
structure Session where
  main : Step Unit (String × Option (ThreadSafeFunction × WString))
  worker : Option (Step Unit Unit)

/-- The thread started by a run on the caller: the lambda of lines 144-208
on the captured thread-safe function and wide prompt, when the run reached
`std::thread`. -/
def startedWorker (p : LanguageModelPlatform)
    (main : Step Unit (String × Option (ThreadSafeFunction × WString))) :
    Option (Step Unit Unit) :=
  match main.out with
  | .ok (_, some (tsfn, widePrompt)) => some (Worker p tsfn widePrompt ())
  | _ => none

/-- The export `CallPhiSilica`. -/
def CallPhiSilica (h : Host) (p : LanguageModelPlatform) (info : List Value) : Session :=
  ⟨CallPhiSilicaMain h info (), startedWorker p (CallPhiSilicaMain h info ())⟩

/-! ## `CreateActionRuntime` and `SetActionAvailability` (lines 30-55, 218-249) -/

/-- The Windows calls behind the action runtime, as operations on a platform
state `σ`. -/
structure ActionRuntimeApi (σ : Type) where
  /-- The call `CoCreateInstance(clsid, nullptr, CLSCTX_LOCAL_SERVER, iid, &p)`: the
  `HRESULT` returned. -/
  CoCreateInstance : σ → Int × σ
  /-- The call `actionRuntime.SetActionAvailability(name, isAvailable)`. -/
  SetActionAvailability : WString → Bool → σ → Outcome Unit × σ
  /-- The call `actionRuntime.Close()`. -/
  Close : σ → Outcome Unit × σ

/-- The test `FAILED(hr)`: the `HRESULT` is negative. -/
def FAILED (hr : Int) : Bool :=
  decide (hr < 0)

/-- The helper `CreateActionRuntime`, lines 30-55; its `catch (...)` clause
rethrows. -/
def CreateActionRuntime {σ : Type} (api : ActionRuntimeApi σ) : Prog σ Unit :=
  tryCatch
    (do
      let hr ← callS PlatformCall.CoCreateInstance
        (fun s => (Except.ok (api.CoCreateInstance s).1, (api.CoCreateInstance s).2))
      if FAILED hr then
        compute (Except.error (Exc.hresult_error "Failed to create ActionRuntime"))
      else
        return ())
    (fun e => some (compute (Except.error e)))

/-- The export `SetActionAvailability`, lines 218-249: the argument guard,
then the `try` block with its two `catch` clauses. -/
def SetActionAvailability {σ : Type} (api : ActionRuntimeApi σ) (h : Host) (info : List Value) :
    Prog σ Unit :=
  if info.length != 2 || !(arg info 0).IsString || !(arg info 1).IsBoolean then
    emit (Effect.ThrowAsJavaScriptException JsErrorKind.TypeError
      "String and boolean arguments expected")
  else do
    let isAvailable ← library (asBool h (arg info 1))
    let actionName ← library (asStdString h (arg info 0))
    tryCatch
      (do
        CreateActionRuntime api
        let wideActionName ← compute (h.from_bytes actionName)
        callS (PlatformCall.SetActionAvailability wideActionName isAvailable)
          (api.SetActionAvailability wideActionName isAvailable)
        callS PlatformCall.Close api.Close)
      (fun e =>
        match e with
        | .hresult_error message =>
          some (emit (Effect.ThrowAsJavaScriptException JsErrorKind.Error
            ("Failed to set action availability: " ++ message)))
        | .std_exception what =>
          some (emit (Effect.ThrowAsJavaScriptException JsErrorKind.Error what))
        | .unknown => none)

/-! ## The platform action registry -/

/-- Modelled from the spec: the platform action registry behind
`ActionRuntime`, which is a Windows service and not part of the repository.
Section 4.3 and the glossary describe it as a flag per named action ("sets
the named action's availability flag") that "fails if the registry cannot be
reached or the identifier is unrecognized by the platform"; handles to it are
short-lived. -/
structure Registry where
  /-- Whether the registry can be reached. -/
  reachable : Bool
  /-- The actions that the platform recognises, each with its flag. -/
  actions : List (WString × Bool)
  /-- The handles that are open. -/
  openHandles : Nat
  deriving DecidableEq, Repr

/-- Modelled from the spec: setting the flag of every entry of the named
action. -/
def setFlag (name : WString) (flag : Bool) : List (WString × Bool) → List (WString × Bool)
  | [] => []
  | (n, f) :: rest =>
    if n = name then (n, flag) :: setFlag name flag rest else (n, f) :: setFlag name flag rest

/-- Modelled from the spec: whether the platform recognises the action. -/
def recognised (name : WString) (actions : List (WString × Bool)) : Bool :=
  actions.any (fun a => decide (a.1 = name))

/-- Modelled from the spec: the action registry as an `ActionRuntimeApi`.
Creating a handle fails with `E_FAIL` when the registry cannot be reached;
setting a flag fails when the name is not recognised; closing releases the
handle. -/
def registryApi : ActionRuntimeApi Registry where
  CoCreateInstance := fun r =>
    if r.reachable then (0, { r with openHandles := r.openHandles + 1 })
    else (-2147467259, r)
  SetActionAvailability := fun name flag r =>
    if recognised name r.actions then
      (Except.ok (), { r with actions := setFlag name flag r.actions })
    else (Except.error (Exc.hresult_error "Element not found."), r)
  Close := fun r => (Except.ok (), { r with openHandles := r.openHandles - 1 })

/-! ## Concrete hosts and platforms

The inputs at which the theorems below are instantiated. -/

/-- A host whose library is built with C++ exceptions: on a value of the wrong
type it raises `Napi::Error`, a `std::exception`. Its `char` is signed and its
`from_bytes` is the identity, which is what the conversion does on ASCII
input. -/
def throwingHost : Host where
  char_is_signed := true
  Utf8Value_of_non_string := fun _ =>
    ⟨none, Except.error (Exc.std_exception "A string was expected")⟩
  BooleanValue_of_non_boolean := fun _ =>
    ⟨none, Except.error (Exc.std_exception "A boolean was expected")⟩
  ThreadSafeFunction_New := fun v =>
    if v.IsFunction then ⟨none, Except.ok ThreadSafeFunction.created⟩
    else ⟨none, Except.error (Exc.std_exception "Invalid argument")⟩
  from_bytes := fun s => Except.ok s

/-- A host whose library is built without C++ exceptions: on a value of the
wrong type it leaves a JavaScript exception pending and returns a default
value (the empty string, `false`, the empty thread-safe function). -/
def returningHost : Host where
  char_is_signed := true
  Utf8Value_of_non_string := fun _ =>
    ⟨some (JsErrorKind.TypeError, "A string was expected"), Except.ok []⟩
  BooleanValue_of_non_boolean := fun _ =>
    ⟨some (JsErrorKind.TypeError, "A boolean was expected"), Except.ok false⟩
  ThreadSafeFunction_New := fun v =>
    if v.IsFunction then ⟨none, Except.ok ThreadSafeFunction.created⟩
    else ⟨some (JsErrorKind.Error, "Invalid argument"), Except.ok ThreadSafeFunction.empty⟩
  from_bytes := fun s => Except.ok s

/-- A language model that is ready and answers `"Hello!"` after two progress
events. -/
def readyModel : LanguageModelPlatform where
  GetReadyState := Except.ok AIFeatureReadyState.Ready
  CreateAsync := Except.ok ()
  LanguageModelOptions := Except.ok ()
  TopK := fun _ => Except.ok ()
  Temperature := fun _ => Except.ok ()
  GenerateResponseAsync := fun _ => Except.ok ()
  Progress := Except.ok ()
  progressEvents := fun _ => ["Hel", "Hello"]
  get := fun _ => Except.ok "Hello!"

/-- A language model that is not ready. -/
def notReadyModel : LanguageModelPlatform :=
  { readyModel with GetReadyState := Except.ok AIFeatureReadyState.NotReady }

/-- A language model that is ready and whose creation fails with an hresult
error. -/
def createFailsModel : LanguageModelPlatform :=
  { readyModel with CreateAsync := Except.error (Exc.hresult_error "Access is denied.") }

/-- A platform whose readiness check fails with `E_OUTOFMEMORY`, which
C++/WinRT raises as `std::bad_alloc`. -/
def outOfMemoryModel : LanguageModelPlatform :=
  { readyModel with GetReadyState := Except.error (Exc.std_exception "bad allocation") }

/-- A language model that is ready and whose generation runs out of memory
after two progress events. -/
def outOfMemoryLateModel : LanguageModelPlatform :=
  { readyModel with get := fun _ => Except.error (Exc.std_exception "bad allocation") }

/-- A toast platform on which every call completes. -/
def toastOk : ToastPlatform where
  CreateToastNotifier := Except.ok ()
  XmlDocument := Except.ok ()
  LoadXml := fun _ => Except.ok ()
  ToastNotification := Except.ok ()
  Show := Except.ok ()

/-- A Flutter platform on which every call completes. -/
def flutterOk : FlutterPlatform where
  RuntimeInfo_AsString := Except.ok "1.6.3"
  AppNotificationBuilder := Except.ok ()
  AddText := fun _ => Except.ok ()
  BuildNotification := Except.ok ()
  AppNotificationManager_Default := Except.ok ()
  Show := Except.ok ()

/-- A Flutter platform on which `manager.Show` fails with an hresult error. -/
def flutterShowFails : FlutterPlatform :=
  { flutterOk with Show := Except.error (Exc.hresult_error "Element not found.") }

/-- A Flutter platform on which the second `AddText` runs out of memory. -/
def flutterAddTextFails : FlutterPlatform :=
  { flutterOk with
    AddText := fun text =>
      if text = "Hello from Flutter!" then Except.ok ()
      else Except.error (Exc.std_exception "bad allocation") }

/-- An action runtime on which every call completes. -/
def completingApi : ActionRuntimeApi Unit where
  CoCreateInstance := fun s => (0, s)
  SetActionAvailability := fun _ _ s => (Except.ok (), s)
  Close := fun s => (Except.ok (), s)

/-- An action runtime that cannot be created: `CoCreateInstance` returns
`E_FAIL`. -/
def unreachableApi : ActionRuntimeApi Unit where
  CoCreateInstance := fun s => (-2147467259, s)
  SetActionAvailability := fun _ _ s => (Except.ok (), s)
  Close := fun s => (Except.ok (), s)

/-- A registry that can be reached and knows the action `hi`, not available. -/
def sampleRegistry : Registry :=
  ⟨true, [([104, 105], false)], 0⟩

/-- An action runtime whose `SetActionAvailability` raises an exception that
is neither an hresult error nor a `std::exception`. -/
def unknownFailureApi : ActionRuntimeApi Unit where
  CoCreateInstance := fun s => (0, s)
  SetActionAvailability := fun _ _ s => (Except.error Exc.unknown, s)
  Close := fun s => (Except.ok (), s)

/-- A log with no release of the handle and no terminal callback in it. -/
def quiet (log : List Effect) : Bool :=
  log.all fun e =>
    match e with
    | Effect.Release => false
    | Effect.BlockingCall c => !c.isTerminal
    | _ => true

/-! ## Theorems: Flutter handler -/

/-- The `try` block of the Flutter `showNotification` branch completes exactly
when each of its six platform calls does. -/
theorem flutterShowNotificationBody_ok_iff (p : FlutterPlatform) :
    flutterShowNotificationBody p = Except.ok () ↔
      p.AppNotificationBuilder = Except.ok () ∧
      p.AddText "Hello from Flutter!" = Except.ok () ∧
      p.AddText "This notification is powered by the Windows App SDK." = Except.ok () ∧
      p.BuildNotification = Except.ok () ∧
      p.AppNotificationManager_Default = Except.ok () ∧
      p.Show = Except.ok () := by
  unfold flutterShowNotificationBody
  cases h1 : p.AppNotificationBuilder <;>
  cases h2 : p.AddText "Hello from Flutter!" <;>
  cases h3 : p.AddText "This notification is powered by the Windows App SDK." <;>
  cases h4 : p.BuildNotification <;>
  cases h5 : p.AppNotificationManager_Default <;>
  cases h6 : p.Show <;>
  simp [bind, Except.bind]

/-- The `try` block of the Flutter `showNotification` branch raises what the
first of its six platform calls that raises does. -/
theorem flutterShowNotificationBody_error_iff (p : FlutterPlatform) (e : Exc) :
    flutterShowNotificationBody p = Except.error e ↔
      firstFailure
        [p.AppNotificationBuilder,
         p.AddText "Hello from Flutter!",
         p.AddText "This notification is powered by the Windows App SDK.",
         p.BuildNotification,
         p.AppNotificationManager_Default,
         p.Show] = some e := by
  unfold flutterShowNotificationBody
  cases h1 : p.AppNotificationBuilder <;>
  cases h2 : p.AddText "Hello from Flutter!" <;>
  cases h3 : p.AddText "This notification is powered by the Windows App SDK." <;>
  cases h4 : p.BuildNotification <;>
  cases h5 : p.AppNotificationManager_Default <;>
  cases h6 : p.Show <;>
  simp [bind, Except.bind, firstFailure]

/-- C7: every method call on the Flutter channel gets exactly one reply.
`getRuntimeVersion` replies Success with the version string when
`RuntimeInfo::AsString()` returns it; `showNotification` replies Success with
`true` when its six platform calls complete. For either method, when a
platform call raises (for `showNotification`: the first of the six calls, in
source order, that raises), an hresult error replies Error `WINRT_ERROR` with
the platform message and any other exception replies Error `UNKNOWN_ERROR`
with the fixed message of that method. Every other method name replies
NotImplemented. -/
theorem C7_methodCallHandler_reply (p : FlutterPlatform) (method_name : String) :
    (∃ r, methodCallHandler p method_name = [r]) ∧
    (method_name = "getRuntimeVersion" →
      (∀ v, p.RuntimeInfo_AsString = Except.ok v →
        methodCallHandler p method_name = [Reply.SuccessString v]) ∧
      (∀ m, p.RuntimeInfo_AsString = Except.error (Exc.hresult_error m) →
        methodCallHandler p method_name = [Reply.Error "WINRT_ERROR" m]) ∧
      (∀ e, p.RuntimeInfo_AsString = Except.error e → (∀ m, e ≠ Exc.hresult_error m) →
        methodCallHandler p method_name =
          [Reply.Error "UNKNOWN_ERROR" "Failed to get Windows App Runtime version"])) ∧
    (method_name = "showNotification" →
      (p.AppNotificationBuilder = Except.ok () →
        p.AddText "Hello from Flutter!" = Except.ok () →
        p.AddText "This notification is powered by the Windows App SDK." = Except.ok () →
        p.BuildNotification = Except.ok () →
        p.AppNotificationManager_Default = Except.ok () →
        p.Show = Except.ok () →
        methodCallHandler p method_name = [Reply.SuccessBool true]) ∧
      (∀ m,
        firstFailure
          [p.AppNotificationBuilder,
           p.AddText "Hello from Flutter!",
           p.AddText "This notification is powered by the Windows App SDK.",
           p.BuildNotification,
           p.AppNotificationManager_Default,
           p.Show] = some (Exc.hresult_error m) →
        methodCallHandler p method_name = [Reply.Error "WINRT_ERROR" m]) ∧
      (∀ e,
        firstFailure
          [p.AppNotificationBuilder,
           p.AddText "Hello from Flutter!",
           p.AddText "This notification is powered by the Windows App SDK.",
           p.BuildNotification,
           p.AppNotificationManager_Default,
           p.Show] = some e →
        (∀ m, e ≠ Exc.hresult_error m) →
        methodCallHandler p method_name =
          [Reply.Error "UNKNOWN_ERROR" "Failed to show notification"])) ∧
    (method_name ≠ "getRuntimeVersion" → method_name ≠ "showNotification" →
      methodCallHandler p method_name = [Reply.NotImplemented]) := by
  refine ⟨?_, ?_, ?_, ?_⟩
  · unfold methodCallHandler
    split
    · split <;> exact ⟨_, rfl⟩
    · split
      · split <;> exact ⟨_, rfl⟩
      · exact ⟨_, rfl⟩
  · intro hm
    subst hm
    refine ⟨?_, ?_, ?_⟩
    · intro v hv
      simp [methodCallHandler, hv]
    · intro m hv
      simp [methodCallHandler, hv]
    · intro e hv hne
      cases e with
      | hresult_error m => exact absurd rfl (hne m)
      | std_exception w => simp [methodCallHandler, hv]
      | unknown => simp [methodCallHandler, hv]
  · intro hm
    subst hm
    refine ⟨?_, ?_, ?_⟩
    · intro h1 h2 h3 h4 h5 h6
      have hb : flutterShowNotificationBody p = Except.ok () :=
        (flutterShowNotificationBody_ok_iff p).2 ⟨h1, h2, h3, h4, h5, h6⟩
      simp [methodCallHandler, hb]
    · intro m hf
      have hv := (flutterShowNotificationBody_error_iff p _).2 hf
      simp [methodCallHandler, hv]
    · intro e hf hne
      have hv := (flutterShowNotificationBody_error_iff p _).2 hf
      cases e with
      | hresult_error m => exact absurd rfl (hne m)
      | std_exception w => simp [methodCallHandler, hv]
      | unknown => simp [methodCallHandler, hv]
  · intro h1 h2
    simp [methodCallHandler, h1, h2]

/-- Witness of C7: the three replies on `flutterOk`, the `WINRT_ERROR` reply
when `manager.Show` raises an hresult error, and the `UNKNOWN_ERROR` reply
when the second `AddText` raises a `std::exception`. -/
theorem C7_methodCallHandler_witness :
    methodCallHandler flutterOk "getRuntimeVersion" = [Reply.SuccessString "1.6.3"] ∧
    methodCallHandler flutterOk "showNotification" = [Reply.SuccessBool true] ∧
    methodCallHandler flutterOk "getPlatformVersion" = [Reply.NotImplemented] ∧
    methodCallHandler flutterShowFails "showNotification" =
      [Reply.Error "WINRT_ERROR" "Element not found."] ∧
    methodCallHandler flutterAddTextFails "showNotification" =
      [Reply.Error "UNKNOWN_ERROR" "Failed to show notification"] :=
  ⟨((C7_methodCallHandler_reply flutterOk "getRuntimeVersion").2.1 rfl).1 "1.6.3" rfl,
   ((C7_methodCallHandler_reply flutterOk "showNotification").2.2.1 rfl).1 rfl rfl rfl rfl rfl rfl,
   (C7_methodCallHandler_reply flutterOk "getPlatformVersion").2.2.2 (by decide) (by decide),
   ((C7_methodCallHandler_reply flutterShowFails "showNotification").2.2.1 rfl).2.1
      "Element not found." (by decide),
   ((C7_methodCallHandler_reply flutterAddTextFails "showNotification").2.2.1 rfl).2.2
      (Exc.std_exception "bad allocation") (by decide) (by intro m; exact Exc.noConfusion)⟩

/-! ## Theorems: the worker of `CallPhiSilica` -/

/-- The worker of a session, when one was started, is the lambda run on the
thread-safe function and the wide prompt that the caller made. -/
theorem session_worker (h : Host) (p : LanguageModelPlatform) (info : List Value)
    (w : Step Unit Unit) (hw : (CallPhiSilica h p info).worker = some w) :
    ∃ tsfn widePrompt, w = Worker p tsfn widePrompt () := by
  simp only [CallPhiSilica, startedWorker] at hw
  split at hw
  · rename_i tsfn widePrompt _
    exact ⟨tsfn, widePrompt, (Option.some.inj hw).symm⟩
  · exact absurd hw (by simp)

/-- On a created thread-safe function the progress handler queues one
callback per event, in order, and goes on. -/
theorem raiseProgress_created (events : List String) (s : Unit) :
    raiseProgress ThreadSafeFunction.created events s =
      ⟨events.map (fun fragment => Effect.BlockingCall ⟨Site.progress, [fragment]⟩),
       Except.ok (), s⟩ := by
  induction events with
  | nil => rfl
  | cons e rest ih =>
    simp [raiseProgress, progressHandler, BlockingCall, emit, Prog.bind, ih]

/-- The log of the worker on a created thread-safe function when the
readiness check reports a state other than `Ready`. -/
theorem Worker_not_ready (p : LanguageModelPlatform) (widePrompt : WString)
    (st : AIFeatureReadyState) (h1 : p.GetReadyState = Except.ok st)
    (h2 : st ≠ AIFeatureReadyState.Ready) :
    (Worker p ThreadSafeFunction.created widePrompt ()).log =
      [Effect.platform PlatformCall.GetReadyState,
       Effect.BlockingCall ⟨Site.notReady, ["not ready"]⟩,
       Effect.Release] := by
  simp [Worker, WorkerBody, tryCatch, call, emit, BlockingCall, Release, Outcome.toRun,
    bind, Prog.bind, h1, h2]

/-- The log of the worker on a created thread-safe function when the
readiness check reports `Ready` and every platform call of the branch
completes. -/
theorem Worker_ready_ok (p : LanguageModelPlatform) (widePrompt : WString) (text : String)
    (h1 : p.GetReadyState = Except.ok AIFeatureReadyState.Ready)
    (h2 : p.CreateAsync = Except.ok ())
    (h3 : p.LanguageModelOptions = Except.ok ())
    (h4 : p.TopK 15 = Except.ok ())
    (h5 : p.Temperature "0.9f" = Except.ok ())
    (h6 : p.GenerateResponseAsync widePrompt = Except.ok ())
    (h7 : p.Progress = Except.ok ())
    (h8 : p.get widePrompt = Except.ok text) :
    (Worker p ThreadSafeFunction.created widePrompt ()).log =
      [Effect.platform PlatformCall.GetReadyState,
       Effect.BlockingCall ⟨Site.ready, ["ready"]⟩,
       Effect.platform PlatformCall.CreateAsync,
       Effect.platform PlatformCall.LanguageModelOptions,
       Effect.platform (PlatformCall.TopK 15),
       Effect.platform (PlatformCall.Temperature "0.9f"),
       Effect.platform (PlatformCall.GenerateResponseAsync widePrompt),
       Effect.platform PlatformCall.Progress,
       Effect.platform PlatformCall.get]
      ++ (p.progressEvents widePrompt).map
          (fun fragment => Effect.BlockingCall ⟨Site.progress, [fragment]⟩)
      ++ [Effect.BlockingCall ⟨Site.final, [text]⟩, Effect.Release] := by
  simp [Worker, WorkerBody, tryCatch, call, emit, compute, BlockingCall, Release,
    Outcome.toRun, raiseProgress_created, bind, Prog.bind, h1, h2, h3, h4, h5, h6, h7, h8]

/-- The callbacks of two logs in a row. -/
theorem callbacks_append (a b : List Effect) :
    callbacks (a ++ b) = callbacks a ++ callbacks b := by
  induction a with
  | nil => rfl
  | cons e rest ih =>
    cases e <;> simp [callbacks, ih]

/-- The callbacks of the progress events, one per event, in order. -/
theorem callbacks_progress (events : List String) :
    callbacks (events.map (fun fragment => Effect.BlockingCall ⟨Site.progress, [fragment]⟩)) =
      events.map (fun fragment => (⟨Site.progress, [fragment]⟩ : Callback)) := by
  induction events with
  | nil => rfl
  | cons e rest ih => simp [callbacks, ih]

/-- A worker started on the empty thread-safe function makes the readiness
check and nothing else: it delivers no callback and does not return (the
process is aborted at its first `BlockingCall`, or an exception that is not
an hresult error leaves it before that). -/
theorem Worker_empty_handle (p : LanguageModelPlatform) (widePrompt : WString) :
    (Worker p ThreadSafeFunction.empty widePrompt ()).log =
      [Effect.platform PlatformCall.GetReadyState] ∧
    (Worker p ThreadSafeFunction.empty widePrompt ()).out ≠ Except.ok () := by
  rcases h1 : p.GetReadyState with (m | m | _) | st
  · simp [Worker, WorkerBody, tryCatch, call, abort, BlockingCall, Release, Outcome.toRun,
      bind, Prog.bind, h1]
  · simp [Worker, WorkerBody, tryCatch, call, abort, BlockingCall, Release, Outcome.toRun,
      bind, Prog.bind, h1]
  · simp [Worker, WorkerBody, tryCatch, call, abort, BlockingCall, Release, Outcome.toRun,
      bind, Prog.bind, h1]
  · by_cases hst : st = AIFeatureReadyState.Ready
    · simp [Worker, WorkerBody, tryCatch, call, abort, BlockingCall, Release, Outcome.toRun,
        bind, Prog.bind, h1, hst]
    · simp [Worker, WorkerBody, tryCatch, call, abort, BlockingCall, Release, Outcome.toRun,
        bind, Prog.bind, h1, hst]

/-- C2 (as amended): for a worker that holds a created thread-safe function
(by `session_worker` the worker of a session is `Worker p tsfn widePrompt ()`
for the `tsfn` that the caller made), when the readiness check reports
`Ready` and every platform call of the branch completes (model creation,
option setup, start of generation, attaching the progress handler, awaiting
the response), the callbacks are `"ready"`, then one per progress event in
the order raised, then one with the complete response text. -/
theorem C2_ready_trace_when_generation_completes
    (p : LanguageModelPlatform) (widePrompt : WString) (text : String)
    (h1 : p.GetReadyState = Except.ok AIFeatureReadyState.Ready)
    (h2 : p.CreateAsync = Except.ok ())
    (h3 : p.LanguageModelOptions = Except.ok ())
    (h4 : p.TopK 15 = Except.ok ())
    (h5 : p.Temperature "0.9f" = Except.ok ())
    (h6 : p.GenerateResponseAsync widePrompt = Except.ok ())
    (h7 : p.Progress = Except.ok ())
    (h8 : p.get widePrompt = Except.ok text) :
    callbacks (Worker p ThreadSafeFunction.created widePrompt ()).log =
      (⟨Site.ready, ["ready"]⟩ : Callback)
        :: (p.progressEvents widePrompt).map (fun fragment => (⟨Site.progress, [fragment]⟩ : Callback))
        ++ [⟨Site.final, [text]⟩] := by
  rw [Worker_ready_ok p widePrompt text h1 h2 h3 h4 h5 h6 h7 h8]
  simp [callbacks_append, callbacks_progress, callbacks]

/-- Witness of C2 (as amended) at `readyModel`. -/
theorem C2_ready_trace_witness :
    callbacks (Worker readyModel ThreadSafeFunction.created [104, 105] ()).log =
      [⟨Site.ready, ["ready"]⟩, ⟨Site.progress, ["Hel"]⟩, ⟨Site.progress, ["Hello"]⟩,
       ⟨Site.final, ["Hello!"]⟩] :=
  C2_ready_trace_when_generation_completes readyModel [104, 105] "Hello!"
    rfl rfl rfl rfl rfl rfl rfl rfl

/-- Counterexample to C2 as stated, at two sessions whose readiness check
reports `Ready`. In the first the callback is a function and model creation
fails: the callbacks are `"ready"` followed by the error, and no invocation
carries a response text. In the second, `callPhiSilica("hello")` on a library
built without C++ exceptions, the thread is started on the empty thread-safe
function: the worker is aborted at its first `BlockingCall` and not even
`"ready"` is delivered. -/
theorem C2_ready_without_final_text :
    createFailsModel.GetReadyState = Except.ok AIFeatureReadyState.Ready ∧
    callbacks (Worker createFailsModel ThreadSafeFunction.created [104, 105] ()).log =
      [⟨Site.ready, ["ready"]⟩,
       ⟨Site.error, ["error", "Failed to make language model available: Access is denied."]⟩] ∧
    (¬ ∃ (fragments : List String) (text : String),
      callbacks (Worker createFailsModel ThreadSafeFunction.created [104, 105] ()).log =
        (⟨Site.ready, ["ready"]⟩ : Callback)
          :: fragments.map (fun fragment => (⟨Site.progress, [fragment]⟩ : Callback))
          ++ [⟨Site.final, [text]⟩]) ∧
    readyModel.GetReadyState = Except.ok AIFeatureReadyState.Ready ∧
    (CallPhiSilica returningHost readyModel [Value.string "hello"]).worker.map
        (fun w => (callbacks w.log, w.out)) =
      some ([], Except.error Stop.abort) := by
  have hlog : callbacks (Worker createFailsModel ThreadSafeFunction.created [104, 105] ()).log =
      [⟨Site.ready, ["ready"]⟩,
       ⟨Site.error, ["error", "Failed to make language model available: Access is denied."]⟩] := by
    decide
  refine ⟨rfl, hlog, ?_, rfl, by decide⟩
  rintro ⟨fragments, text, h⟩
  rw [hlog] at h
  cases fragments with
  | nil => simp at h
  | cons f rest =>
    cases rest with
    | nil => simp at h
    | cons g more => simp at h

/-- C3 (the code at the failing input): `callPhiSilica("hello")`, the callback
missing, on a library built without C++ exceptions and a model that is not
ready. The guard of line 108 lets the call through, the thread is started on
the empty thread-safe function, the readiness check reports `NotReady`, and
the process is aborted at `tsfn.BlockingCall`: the session delivers no
callback at all, not the single `"not ready"`. -/
theorem C3_missing_callback_no_not_ready_callback :
    notReadyModel.GetReadyState = Except.ok AIFeatureReadyState.NotReady ∧
    (CallPhiSilica returningHost notReadyModel [Value.string "hello"]).main.out =
      Except.ok ("started", some (ThreadSafeFunction.empty, [104, 101, 108, 108, 111])) ∧
    (CallPhiSilica returningHost notReadyModel [Value.string "hello"]).worker.map
        (fun w => w.log) =
      some [Effect.platform PlatformCall.GetReadyState] ∧
    (CallPhiSilica returningHost notReadyModel [Value.string "hello"]).worker.map
        (fun w => callbacks w.log) = some [] ∧
    (CallPhiSilica returningHost notReadyModel [Value.string "hello"]).worker.map
        (fun w => w.out) = some (Except.error Stop.abort) := by
  decide

/-- The callbacks of the progress handler are not terminal. -/
theorem quiet_progress (events : List String) :
    quiet (events.map (fun fragment => Effect.BlockingCall ⟨Site.progress, [fragment]⟩)) =
      true := by
  induction events with
  | nil => rfl
  | cons e rest ih =>
    unfold quiet at ih
    simp [quiet, Callback.isTerminal, ih]

/-- The `try` block of a worker that holds a created thread-safe function
either completes, and then its last effect is a terminal callback (final text
or `"not ready"`) with none before it, or raises, and then it has delivered no
terminal callback. -/
theorem WorkerBody_shape (p : LanguageModelPlatform) (widePrompt : WString) :
    (∃ pre t, (WorkerBody p ThreadSafeFunction.created widePrompt ()).out = Except.ok () ∧
      (WorkerBody p ThreadSafeFunction.created widePrompt ()).log =
        pre ++ [Effect.BlockingCall t] ∧
      t.isTerminal = true ∧ quiet pre = true) ∨
    (∃ e, (WorkerBody p ThreadSafeFunction.created widePrompt ()).out =
        Except.error (Stop.raised e) ∧
      quiet (WorkerBody p ThreadSafeFunction.created widePrompt ()).log = true) := by
  rcases h1 : p.GetReadyState with e | st
  · exact Or.inr ⟨e, by simp [WorkerBody, call, emit, compute, BlockingCall, Outcome.toRun,
        raiseProgress_created, bind, Prog.bind, h1],
      by simp [WorkerBody, call, emit, compute, BlockingCall, Outcome.toRun,
        raiseProgress_created, bind, Prog.bind, h1, quiet]⟩
  by_cases hst : st = AIFeatureReadyState.Ready
  swap
  · exact Or.inl ⟨[Effect.platform PlatformCall.GetReadyState], ⟨Site.notReady, ["not ready"]⟩,
      by simp [WorkerBody, call, emit, compute, BlockingCall, Outcome.toRun,
        raiseProgress_created, bind, Prog.bind, h1, hst],
      by simp [WorkerBody, call, emit, compute, BlockingCall, Outcome.toRun,
        raiseProgress_created, bind, Prog.bind, h1, hst], rfl, rfl⟩
  subst hst
  rcases h2 : p.CreateAsync with e | u
  · exact Or.inr ⟨e, by simp [WorkerBody, call, emit, compute, BlockingCall, Outcome.toRun,
        raiseProgress_created, bind, Prog.bind, h1, h2],
      by simp [WorkerBody, call, emit, compute, BlockingCall, Outcome.toRun,
        raiseProgress_created, bind, Prog.bind, h1, h2, quiet, Callback.isTerminal]⟩
  rcases h3 : p.LanguageModelOptions with e | u
  · exact Or.inr ⟨e, by simp [WorkerBody, call, emit, compute, BlockingCall, Outcome.toRun,
        raiseProgress_created, bind, Prog.bind, h1, h2, h3],
      by simp [WorkerBody, call, emit, compute, BlockingCall, Outcome.toRun,
        raiseProgress_created, bind, Prog.bind, h1, h2, h3, quiet, Callback.isTerminal]⟩
  rcases h4 : p.TopK 15 with e | u
  · exact Or.inr ⟨e, by simp [WorkerBody, call, emit, compute, BlockingCall, Outcome.toRun,
        raiseProgress_created, bind, Prog.bind, h1, h2, h3, h4],
      by simp [WorkerBody, call, emit, compute, BlockingCall, Outcome.toRun,
        raiseProgress_created, bind, Prog.bind, h1, h2, h3, h4, quiet, Callback.isTerminal]⟩
  rcases h5 : p.Temperature "0.9f" with e | u
  · exact Or.inr ⟨e, by simp [WorkerBody, call, emit, compute, BlockingCall, Outcome.toRun,
        raiseProgress_created, bind, Prog.bind, h1, h2, h3, h4, h5],
      by simp [WorkerBody, call, emit, compute, BlockingCall, Outcome.toRun,
        raiseProgress_created, bind, Prog.bind, h1, h2, h3, h4, h5, quiet, Callback.isTerminal]⟩
  rcases h6 : p.GenerateResponseAsync widePrompt with e | u
  · exact Or.inr ⟨e, by simp [WorkerBody, call, emit, compute, BlockingCall, Outcome.toRun,
        raiseProgress_created, bind, Prog.bind, h1, h2, h3, h4, h5, h6],
      by simp [WorkerBody, call, emit, compute, BlockingCall, Outcome.toRun,
        raiseProgress_created, bind, Prog.bind, h1, h2, h3, h4, h5, h6, quiet, Callback.isTerminal]⟩
  rcases h7 : p.Progress with e | u
  · exact Or.inr ⟨e, by simp [WorkerBody, call, emit, compute, BlockingCall, Outcome.toRun,
        raiseProgress_created, bind, Prog.bind, h1, h2, h3, h4, h5, h6, h7],
      by simp [WorkerBody, call, emit, compute, BlockingCall, Outcome.toRun,
        raiseProgress_created, bind, Prog.bind, h1, h2, h3, h4, h5, h6, h7, quiet, Callback.isTerminal]⟩
  rcases h8 : p.get widePrompt with e | text
  · refine Or.inr ⟨e, by simp [WorkerBody, call, emit, compute, BlockingCall, Outcome.toRun,
        raiseProgress_created, bind, Prog.bind, h1, h2, h3, h4, h5, h6, h7, h8], ?_⟩
    simp [WorkerBody, call, emit, compute, BlockingCall, Outcome.toRun,
        raiseProgress_created, bind, Prog.bind, h1, h2, h3, h4, h5, h6, h7, h8, quiet, Callback.isTerminal]
  · refine Or.inl ⟨[Effect.platform PlatformCall.GetReadyState,
       Effect.BlockingCall ⟨Site.ready, ["ready"]⟩,
       Effect.platform PlatformCall.CreateAsync,
       Effect.platform PlatformCall.LanguageModelOptions,
       Effect.platform (PlatformCall.TopK 15),
       Effect.platform (PlatformCall.Temperature "0.9f"),
       Effect.platform (PlatformCall.GenerateResponseAsync widePrompt),
       Effect.platform PlatformCall.Progress,
       Effect.platform PlatformCall.get]
      ++ (p.progressEvents widePrompt).map
          (fun fragment => Effect.BlockingCall ⟨Site.progress, [fragment]⟩),
      ⟨Site.final, [text]⟩,
      by simp [WorkerBody, call, emit, compute, BlockingCall, Outcome.toRun,
        raiseProgress_created, bind, Prog.bind, h1, h2, h3, h4, h5, h6, h7, h8],
      by simp [WorkerBody, call, emit, compute, BlockingCall, Outcome.toRun,
        raiseProgress_created, bind, Prog.bind, h1, h2, h3, h4, h5, h6, h7, h8], rfl, ?_⟩
    simp [quiet, Callback.isTerminal]

/-- The two ways a worker that holds a created thread-safe function ends.
Either it returns, and then its log ends with one terminal callback followed
by `tsfn.Release()`, with no terminal callback and no release before them
(this covers success, not-ready and every hresult error); or an exception that
is not an hresult error leaves it, and then its log holds no terminal
callback and no release. -/
theorem Worker_shape (p : LanguageModelPlatform) (widePrompt : WString) :
    (∃ pre t, (Worker p ThreadSafeFunction.created widePrompt ()).out = Except.ok () ∧
      (Worker p ThreadSafeFunction.created widePrompt ()).log =
        pre ++ [Effect.BlockingCall t, Effect.Release] ∧
      t.isTerminal = true ∧ quiet pre = true) ∨
    (∃ e, (Worker p ThreadSafeFunction.created widePrompt ()).out =
        Except.error (Stop.raised e) ∧
      (∀ m, e ≠ Exc.hresult_error m) ∧
      quiet (Worker p ThreadSafeFunction.created widePrompt ()).log = true) := by
  rcases WorkerBody_shape p widePrompt with ⟨pre, t, hout, hlog, ht, hq⟩ | ⟨e, hout, hq⟩
  · exact Or.inl ⟨pre, t,
      by simp [Worker, tryCatch, emit, BlockingCall, Release, bind, Prog.bind, hout],
      by simp [Worker, tryCatch, emit, BlockingCall, Release, bind, Prog.bind, hout, hlog],
      ht, hq⟩
  · cases e with
    | hresult_error m =>
      exact Or.inl ⟨(WorkerBody p ThreadSafeFunction.created widePrompt ()).log,
        ⟨Site.error, ["error", "Failed to make language model available: " ++ m]⟩,
        by simp [Worker, tryCatch, emit, BlockingCall, Release, bind, Prog.bind, hout],
        by simp [Worker, tryCatch, emit, BlockingCall, Release, bind, Prog.bind, hout],
        rfl, hq⟩
    | std_exception w =>
      exact Or.inr ⟨Exc.std_exception w,
        by simp [Worker, tryCatch, emit, BlockingCall, Release, bind, Prog.bind, hout],
        by simp,
        by simpa [Worker, tryCatch, emit, BlockingCall, Release, bind, Prog.bind, hout] using hq⟩
    | unknown =>
      exact Or.inr ⟨Exc.unknown,
        by simp [Worker, tryCatch, emit, BlockingCall, Release, bind, Prog.bind, hout],
        by simp,
        by simpa [Worker, tryCatch, emit, BlockingCall, Release, bind, Prog.bind, hout] using hq⟩

/-- C1 (the code at the failing input): a `std::exception` raised in the
worker is not caught by its single `catch (const winrt::hresult_error&)`
clause. It leaves the lambda and the session has no terminal callback at all:
none when the readiness check raises, and only `"ready"` and the progress
fragments when the generation raises. -/
theorem C1_worker_std_exception_no_terminal_callback :
    (Worker outOfMemoryModel ThreadSafeFunction.created [104, 105] ()).out =
      Except.error (Stop.raised (Exc.std_exception "bad allocation")) ∧
    callbacks (Worker outOfMemoryModel ThreadSafeFunction.created [104, 105] ()).log = [] ∧
    (Worker outOfMemoryLateModel ThreadSafeFunction.created [104, 105] ()).out =
      Except.error (Stop.raised (Exc.std_exception "bad allocation")) ∧
    callbacks (Worker outOfMemoryLateModel ThreadSafeFunction.created [104, 105] ()).log =
      [⟨Site.ready, ["ready"]⟩, ⟨Site.progress, ["Hel"]⟩, ⟨Site.progress, ["Hello"]⟩] ∧
    (callbacks (Worker outOfMemoryLateModel ThreadSafeFunction.created
      [104, 105] ()).log).filter Callback.isTerminal = [] := by
  decide

/-- A call whose outcome is an oracle outcome does not abort the process. -/
theorem toRun_ne_abort {α : Type} (r : Outcome α) : r.toRun ≠ Except.error Stop.abort := by
  cases r <;> simp [Outcome.toRun]

/-- A sequence of statements none of which aborts the process does not abort
it. -/
theorem bind_ne_abort {σ α β : Type} (x : Prog σ α) (f : α → Prog σ β)
    (hx : ∀ s, (x s).out ≠ Except.error Stop.abort)
    (hf : ∀ a s, (f a s).out ≠ Except.error Stop.abort) (s : σ) :
    ((x >>= f) s).out ≠ Except.error Stop.abort := by
  simp only [bind, Prog.bind]
  cases hr : (x s).out with
  | ok a => simpa using hf a (x s).state
  | error e =>
    have := hx s
    rw [hr] at this
    simpa using this

/-- The `try` block of `ShowNotification` does not abort the process. -/
theorem ShowNotificationBody_ne_abort (h : Host) (p : ToastPlatform) (info : List Value) :
    (ShowNotificationBody h p info ()).out ≠ Except.error Stop.abort := by
  unfold ShowNotificationBody
  refine bind_ne_abort _ _ (fun _ => toRun_ne_abort _) (fun title _ => ?_) ()
  refine bind_ne_abort _ _ (fun _ => toRun_ne_abort _) (fun message _ => ?_) _
  refine bind_ne_abort _ _ (fun _ => toRun_ne_abort _) (fun _ _ => ?_) _
  refine bind_ne_abort _ _ (fun _ => toRun_ne_abort _) (fun _ _ => ?_) _
  refine bind_ne_abort _ _ (fun _ => toRun_ne_abort _) (fun _ _ => ?_) _
  refine bind_ne_abort _ _ (fun _ => toRun_ne_abort _) (fun _ _ => ?_) _
  exact toRun_ne_abort _

/-- The export `ShowNotification` lets no exception out: its three `catch`
clauses cover every kind. -/
theorem ShowNotification_never_raises (h : Host) (p : ToastPlatform) (info : List Value) :
    (ShowNotification h p info ()).out = Except.ok () := by
  have hna := ShowNotificationBody_ne_abort h p info
  unfold ShowNotification tryCatch
  cases hb : (ShowNotificationBody h p info ()).out with
  | ok u => simp [hb]
  | error e =>
    cases e with
    | abort => exact absurd hb hna
    | raised e => cases e <;> simp [hb, emit]

/-- C5 (the code at the failing inputs): a `std::exception` raised by a
platform call in the worker leaves the lambda without an `("error", message)`
callback, and an exception that is neither an hresult error nor a
`std::exception` leaves `SetActionAvailability` without a JavaScript error
being thrown. -/
theorem C5_exceptions_escape_unconverted :
    (Worker outOfMemoryModel ThreadSafeFunction.created [104, 105] ()).out =
      Except.error (Stop.raised (Exc.std_exception "bad allocation")) ∧
    (Worker outOfMemoryModel ThreadSafeFunction.created [104, 105] ()).log =
      [Effect.platform PlatformCall.GetReadyState] ∧
    (SetActionAvailability unknownFailureApi throwingHost
        [Value.string "hi", Value.boolean true] ()).out =
      Except.error (Stop.raised Exc.unknown) ∧
    (SetActionAvailability unknownFailureApi throwingHost
        [Value.string "hi", Value.boolean true] ()).log =
      [Effect.platform PlatformCall.CoCreateInstance,
       Effect.platform (PlatformCall.SetActionAvailability [104, 105] true)] := by
  decide

/-- C6 (the code at the failing input): when a `std::exception` leaves the
worker, `tsfn.Release()` is not reached; the handle is released zero times. -/
theorem C6_worker_std_exception_no_release :
    (Worker outOfMemoryModel ThreadSafeFunction.created [104, 105] ()).out =
      Except.error (Stop.raised (Exc.std_exception "bad allocation")) ∧
    (Worker outOfMemoryModel ThreadSafeFunction.created [104, 105] ()).log.count
      Effect.Release = 0 ∧
    (Worker outOfMemoryLateModel ThreadSafeFunction.created [104, 105] ()).out =
      Except.error (Stop.raised (Exc.std_exception "bad allocation")) ∧
    (Worker outOfMemoryLateModel ThreadSafeFunction.created [104, 105] ()).log.count
      Effect.Release = 0 := by
  decide

/-! ## Theorems: argument validation -/

/-- C4 (the code at the failing inputs). `callPhiSilica("hello")`, with the
callback missing, passes the guard of line 108: for every host the code
itself throws nothing and the first thing done is the call that creates the
thread-safe function, on `undefined`. On a library built without C++
exceptions that call leaves `Error("Invalid argument")` pending and returns the
empty thread-safe function, the thread is started, `"started"` is returned,
and the worker calls the platform (the readiness check) before the process is
aborted at its first `BlockingCall`. On a library built with C++ exceptions
the `Napi::Error` of that call leaves `CallPhiSilica`; no `TypeError` is
thrown. `showNotification(42, "m")` meets no guard at all: with C++
exceptions the conversion raises and the `catch` clause throws a plain
`Error`; without them the conversion leaves a `TypeError` pending, returns the
empty string, and the five toast calls are made with an empty title. -/
theorem C4_malformed_arguments_pass_validation :
    (∀ (h : Host) (p : LanguageModelPlatform),
      (CallPhiSilica h p [Value.string "hello"]).main.log.head? =
        some (Effect.ThreadSafeFunction_New Value.undefined) ∧
      ∀ k m, Effect.ThrowAsJavaScriptException k m ∉
        (CallPhiSilica h p [Value.string "hello"]).main.log) ∧
    (CallPhiSilica returningHost readyModel [Value.string "hello"]).main.log =
      [Effect.ThreadSafeFunction_New Value.undefined,
       Effect.pendingException JsErrorKind.Error "Invalid argument",
       Effect.thread] ∧
    (CallPhiSilica returningHost readyModel [Value.string "hello"]).main.out =
      Except.ok ("started", some (ThreadSafeFunction.empty, [104, 101, 108, 108, 111])) ∧
    (CallPhiSilica returningHost readyModel [Value.string "hello"]).worker.map
        (fun w => (w.log, w.out)) =
      some ([Effect.platform PlatformCall.GetReadyState], Except.error Stop.abort) ∧
    (CallPhiSilica throwingHost readyModel [Value.string "hello"]).main.log =
      [Effect.ThreadSafeFunction_New Value.undefined] ∧
    (CallPhiSilica throwingHost readyModel [Value.string "hello"]).main.out =
      Except.error (Stop.raised (Exc.std_exception "Invalid argument")) ∧
    (ShowNotification throwingHost toastOk [Value.number 42, Value.string "m"] ()).log =
      [Effect.ThrowAsJavaScriptException JsErrorKind.Error "A string was expected"] ∧
    (ShowNotification returningHost toastOk [Value.number 42, Value.string "m"] ()).log =
      [Effect.pendingException JsErrorKind.TypeError "A string was expected",
       Effect.platform PlatformCall.CreateToastNotifier,
       Effect.platform PlatformCall.XmlDocument,
       Effect.platform (PlatformCall.LoadXml (toastXml true [] [109])),
       Effect.platform PlatformCall.ToastNotification,
       Effect.platform PlatformCall.Show] := by
  refine ⟨?_, by decide, by decide, by decide, by decide, by decide, by decide, by decide⟩
  intro h p
  have hmain : CallPhiSilicaMain h [Value.string "hello"] () =
      (do
        let prompt ← library (asStdString h (Value.string "hello"))
        emit (Effect.ThreadSafeFunction_New Value.undefined)
        let tsfn ← library (h.ThreadSafeFunction_New Value.undefined)
        let widePrompt ← compute (h.from_bytes prompt)
        emit Effect.thread
        return ("started", some (tsfn, widePrompt)) :
          Prog Unit (String × Option (ThreadSafeFunction × WString))) () := by
    rfl
  simp only [CallPhiSilica, hmain]
  rcases h1 : h.ThreadSafeFunction_New Value.undefined with ⟨pending, out⟩
  rcases pending with _ | ⟨k, m⟩ <;>
  cases out <;>
  cases h2 : h.from_bytes (Utf8Value "hello") <;>
  simp [asStdString, library, compute, emit, Outcome.toRun, bind, Prog.bind, pure, Prog.pure,
    h1, h2]

/-- An argument list that passes the guard of line 221 is a string followed by
a boolean. -/
theorem guard_pass_shape (info : List Value)
    (hg : (info.length != 2 || !(arg info 0).IsString || !(arg info 1).IsBoolean) = false) :
    ∃ name flag, info = [Value.string name, Value.boolean flag] := by
  simp only [Bool.or_eq_false_iff, bne_eq_false_iff_eq, Bool.not_eq_false'] at hg
  obtain ⟨⟨hlen, hs⟩, hb⟩ := hg
  match info, hlen with
  | [a, b], _ =>
    cases a <;> simp [arg, Value.IsString] at hs
    cases b <;> simp [arg, Value.IsBoolean] at hb
    exact ⟨_, _, rfl⟩

/-- The helper `CreateActionRuntime` makes one platform call and raises the
hresult error of line 46 exactly when the `HRESULT` is a failure. -/
theorem CreateActionRuntime_run {σ : Type} (api : ActionRuntimeApi σ) (s : σ) :
    CreateActionRuntime api s =
      ⟨[Effect.platform PlatformCall.CoCreateInstance],
       if FAILED (api.CoCreateInstance s).1 then
         Except.error (Stop.raised (Exc.hresult_error "Failed to create ActionRuntime"))
       else Except.ok (),
       (api.CoCreateInstance s).2⟩ := by
  unfold CreateActionRuntime tryCatch
  by_cases hf : FAILED (api.CoCreateInstance s).1 = true <;>
    simp [callS, compute, Outcome.toRun, bind, Prog.bind, pure, Prog.pure, hf]


/-- A call that the guard rejects throws the `TypeError` and does nothing
else. -/
theorem SetActionAvailability_rejected {σ : Type} (api : ActionRuntimeApi σ) (h : Host)
    (info : List Value) (s : σ)
    (hg : (info.length != 2 || !(arg info 0).IsString || !(arg info 1).IsBoolean) = true) :
    SetActionAvailability api h info s =
      ⟨[Effect.ThrowAsJavaScriptException JsErrorKind.TypeError
          "String and boolean arguments expected"], Except.ok (), s⟩ := by
  unfold SetActionAvailability
  rw [if_pos hg]
  rfl

/-- A call with a string and a boolean starts with the creation of the
runtime, never throws a `TypeError`, and reaches the platform call with the
converted name and the flag when the runtime is created. -/
theorem SetActionAvailability_accepted {σ : Type} (api : ActionRuntimeApi σ) (h : Host)
    (name : String) (flag : Bool) (s : σ) :
    (SetActionAvailability api h [Value.string name, Value.boolean flag] s).log.head? =
      some (Effect.platform PlatformCall.CoCreateInstance) ∧
    (∀ m, Effect.ThrowAsJavaScriptException JsErrorKind.TypeError m ∉
      (SetActionAvailability api h [Value.string name, Value.boolean flag] s).log) ∧
    (FAILED (api.CoCreateInstance s).1 = false →
      ∀ w, h.from_bytes (Utf8Value name) = Except.ok w →
        Effect.platform (PlatformCall.SetActionAvailability w flag) ∈
          (SetActionAvailability api h [Value.string name, Value.boolean flag] s).log) := by
  have hrun : SetActionAvailability api h [Value.string name, Value.boolean flag] s =
      tryCatch
        (do
          CreateActionRuntime api
          let wideActionName ← compute (h.from_bytes (Utf8Value name))
          callS (PlatformCall.SetActionAvailability wideActionName flag)
            (api.SetActionAvailability wideActionName flag)
          callS PlatformCall.Close api.Close)
        (fun e =>
          match e with
          | .hresult_error message =>
            some (emit (Effect.ThrowAsJavaScriptException JsErrorKind.Error
              ("Failed to set action availability: " ++ message)))
          | .std_exception what =>
            some (emit (Effect.ThrowAsJavaScriptException JsErrorKind.Error what))
          | .unknown => none) s := by
    rfl
  rw [hrun]
  simp only [tryCatch, bind, Prog.bind, CreateActionRuntime_run]
  by_cases hf : FAILED (api.CoCreateInstance s).1 = true
  · simp [hf, emit]
  · simp only [hf]
    rcases hb : h.from_bytes (Utf8Value name) with (m | m | _) | w
    · simp [compute, emit, Outcome.toRun, hb]
    · simp [compute, emit, Outcome.toRun, hb]
    · simp [compute, emit, Outcome.toRun, hb]
    · rcases hs : (api.SetActionAvailability w flag (api.CoCreateInstance s).2).1 with (m | m | _) | u
      · simp [compute, emit, callS, Outcome.toRun, hb, hs]
      · simp [compute, emit, callS, Outcome.toRun, hb, hs]
      · simp [compute, emit, callS, Outcome.toRun, hb, hs]
      · rcases hc : (api.Close (api.SetActionAvailability w flag (api.CoCreateInstance s).2).2).1
          with (m | m | _) | u
        · simp [compute, emit, callS, Outcome.toRun, hb, hs, hc]
        · simp [compute, emit, callS, Outcome.toRun, hb, hs, hc]
        · simp [compute, emit, callS, Outcome.toRun, hb, hs, hc]
        · simp [compute, emit, callS, Outcome.toRun, hb, hs, hc]


/-- C8 (as amended): `setActionAvailability` throws the `TypeError` "String
and boolean arguments expected" if and only if the argument count is not 2, or
the first argument is not a string, or the second is not a boolean; in that
case it makes no platform call and leaves the platform state as it was.
Otherwise the arguments are a string and a boolean and the first effect is
the call that creates the action runtime; when that call succeeds and the
name converts to a wide string, the platform call `SetActionAvailability` is
made with the converted name and the flag. -/
theorem C8_SetActionAvailability_validation {σ : Type} (api : ActionRuntimeApi σ) (h : Host)
    (info : List Value) (s : σ) :
    (Effect.ThrowAsJavaScriptException JsErrorKind.TypeError
        "String and boolean arguments expected" ∈ (SetActionAvailability api h info s).log ↔
      (info.length ≠ 2 ∨ (arg info 0).IsString = false ∨ (arg info 1).IsBoolean = false)) ∧
    ((info.length ≠ 2 ∨ (arg info 0).IsString = false ∨ (arg info 1).IsBoolean = false) →
      (SetActionAvailability api h info s).log =
        [Effect.ThrowAsJavaScriptException JsErrorKind.TypeError
          "String and boolean arguments expected"] ∧
      (SetActionAvailability api h info s).state = s) ∧
    (¬ (info.length ≠ 2 ∨ (arg info 0).IsString = false ∨ (arg info 1).IsBoolean = false) →
      ∃ name flag, info = [Value.string name, Value.boolean flag] ∧
        (SetActionAvailability api h info s).log.head? =
          some (Effect.platform PlatformCall.CoCreateInstance) ∧
        (FAILED (api.CoCreateInstance s).1 = false →
          ∀ w, h.from_bytes (Utf8Value name) = Except.ok w →
            Effect.platform (PlatformCall.SetActionAvailability w flag) ∈
              (SetActionAvailability api h info s).log)) := by
  by_cases hg : (info.length != 2 || !(arg info 0).IsString || !(arg info 1).IsBoolean) = true
  · have hbad : info.length ≠ 2 ∨ (arg info 0).IsString = false ∨ (arg info 1).IsBoolean = false := by
      simpa [or_assoc] using hg
    have hrun := SetActionAvailability_rejected api h info s hg
    refine ⟨?_, ?_, ?_⟩
    · rw [hrun]
      simp [hbad]
    · intro _
      rw [hrun]
      exact ⟨rfl, rfl⟩
    · intro hn
      exact absurd hbad hn
  · have hg2 : (info.length != 2 || !(arg info 0).IsString || !(arg info 1).IsBoolean) = false := by
      simpa using hg
    have hgood : ¬ (info.length ≠ 2 ∨ (arg info 0).IsString = false ∨ (arg info 1).IsBoolean = false) := by
      intro hbad
      apply hg
      simpa [or_assoc] using hbad
    obtain ⟨name, flag, rfl⟩ := guard_pass_shape info hg2
    obtain ⟨hhead, hno, hcall⟩ := SetActionAvailability_accepted api h name flag s
    refine ⟨?_, ?_, ?_⟩
    · constructor
      · intro hmem
        exact absurd hmem (hno _)
      · intro hbad
        exact absurd hbad hgood
    · intro hbad
      exact absurd hbad hgood
    · intro _
      exact ⟨name, flag, rfl, hhead, hcall⟩

/-- Witness of C8 (as amended): `setActionAvailability("hi")` is rejected
with the `TypeError` and nothing else happens; `setActionAvailability("hi",
true)` on a runtime that can be created reaches the platform call with the
name and the flag. -/
theorem C8_SetActionAvailability_witness :
    ((SetActionAvailability completingApi throwingHost [Value.string "hi"] ()).log =
        [Effect.ThrowAsJavaScriptException JsErrorKind.TypeError
          "String and boolean arguments expected"] ∧
      (SetActionAvailability completingApi throwingHost [Value.string "hi"] ()).state = ()) ∧
    Effect.platform (PlatformCall.SetActionAvailability [104, 105] true) ∈
      (SetActionAvailability completingApi throwingHost
        [Value.string "hi", Value.boolean true] ()).log :=
  ⟨(C8_SetActionAvailability_validation completingApi throwingHost [Value.string "hi"]
      ()).2.1 (Or.inl (by decide)),
   by
    obtain ⟨name, flag, hinfo, _, hcall⟩ :=
      (C8_SetActionAvailability_validation completingApi throwingHost
        [Value.string "hi", Value.boolean true] ()).2.2 (by decide)
    have hn : name = "hi" := by
      have := (List.cons.inj hinfo).1
      exact (Value.string.inj this).symm
    have hf : flag = true := by
      have := (List.cons.inj (List.cons.inj hinfo).2).1
      exact (Value.boolean.inj this).symm
    subst hn
    subst hf
    exact hcall rfl [104, 105] rfl⟩

/-- Counterexample to C8 as stated: `setActionAvailability("hi", true)` passes
validation, but on a platform where `CoCreateInstance` fails the action
runtime is not created and the platform call `SetActionAvailability` is never
made, with any name or flag; the export throws the `Error` of its `catch`
clause instead. -/
theorem C8_accepted_without_platform_call :
    ¬ ([Value.string "hi", Value.boolean true].length ≠ 2 ∨
        (arg [Value.string "hi", Value.boolean true] 0).IsString = false ∨
        (arg [Value.string "hi", Value.boolean true] 1).IsBoolean = false) ∧
    (SetActionAvailability unreachableApi throwingHost
        [Value.string "hi", Value.boolean true] ()).log =
      [Effect.platform PlatformCall.CoCreateInstance,
       Effect.ThrowAsJavaScriptException JsErrorKind.Error
         "Failed to set action availability: Failed to create ActionRuntime"] ∧
    ∀ name flag, Effect.platform (PlatformCall.SetActionAvailability name flag) ∉
      (SetActionAvailability unreachableApi throwingHost
        [Value.string "hi", Value.boolean true] ()).log := by
  have hlog : (SetActionAvailability unreachableApi throwingHost
        [Value.string "hi", Value.boolean true] ()).log =
      [Effect.platform PlatformCall.CoCreateInstance,
       Effect.ThrowAsJavaScriptException JsErrorKind.Error
         "Failed to set action availability: Failed to create ActionRuntime"] := by
    decide
  refine ⟨by decide, hlog, ?_⟩
  intro name flag
  rw [hlog]
  simp

/-- Setting a flag twice is setting it once. -/
theorem setFlag_setFlag (name : WString) (flag : Bool) (actions : List (WString × Bool)) :
    setFlag name flag (setFlag name flag actions) = setFlag name flag actions := by
  induction actions with
  | nil => rfl
  | cons a rest ih =>
    obtain ⟨n, f⟩ := a
    by_cases hn : n = name
    · simp [setFlag, hn, ih]
    · simp [setFlag, hn, ih]

/-- Setting a flag does not change which actions are recognised. -/
theorem recognised_setFlag (name : WString) (flag : Bool) (actions : List (WString × Bool)) :
    recognised name (setFlag name flag actions) = recognised name actions := by
  induction actions with
  | nil => rfl
  | cons a rest ih =>
    obtain ⟨n, f⟩ := a
    unfold recognised at ih
    by_cases hn : n = name
    · simp [setFlag, recognised, hn]
    · simp [setFlag, recognised, hn, ih]

/-- The run of `SetActionAvailability` against the action registry, by
cases on what the registry and the conversion of the name do. -/
theorem SetActionAvailability_registry_run (h : Host) (name : String) (flag : Bool)
    (r : Registry) :
    SetActionAvailability registryApi h [Value.string name, Value.boolean flag] r =
      if r.reachable then
        match h.from_bytes (Utf8Value name) with
        | Except.ok w =>
          if recognised w r.actions then
            ⟨[Effect.platform PlatformCall.CoCreateInstance,
              Effect.platform (PlatformCall.SetActionAvailability w flag),
              Effect.platform PlatformCall.Close],
             Except.ok (),
             { r with actions := setFlag w flag r.actions }⟩
          else
            ⟨[Effect.platform PlatformCall.CoCreateInstance,
              Effect.platform (PlatformCall.SetActionAvailability w flag),
              Effect.ThrowAsJavaScriptException JsErrorKind.Error
                "Failed to set action availability: Element not found."],
             Except.ok (),
             { r with openHandles := r.openHandles + 1 }⟩
        | Except.error (Exc.hresult_error m) =>
          ⟨[Effect.platform PlatformCall.CoCreateInstance,
            Effect.ThrowAsJavaScriptException JsErrorKind.Error
              ("Failed to set action availability: " ++ m)],
           Except.ok (), { r with openHandles := r.openHandles + 1 }⟩
        | Except.error (Exc.std_exception m) =>
          ⟨[Effect.platform PlatformCall.CoCreateInstance,
            Effect.ThrowAsJavaScriptException JsErrorKind.Error m],
           Except.ok (), { r with openHandles := r.openHandles + 1 }⟩
        | Except.error Exc.unknown =>
          ⟨[Effect.platform PlatformCall.CoCreateInstance],
           Except.error (Stop.raised Exc.unknown), { r with openHandles := r.openHandles + 1 }⟩
      else
        ⟨[Effect.platform PlatformCall.CoCreateInstance,
          Effect.ThrowAsJavaScriptException JsErrorKind.Error
            "Failed to set action availability: Failed to create ActionRuntime"],
         Except.ok (), r⟩ := by
  have hrun : SetActionAvailability registryApi h [Value.string name, Value.boolean flag] r =
      tryCatch
        (do
          CreateActionRuntime registryApi
          let wideActionName ← compute (h.from_bytes (Utf8Value name))
          callS (PlatformCall.SetActionAvailability wideActionName flag)
            (registryApi.SetActionAvailability wideActionName flag)
          callS PlatformCall.Close registryApi.Close)
        (fun e =>
          match e with
          | .hresult_error message =>
            some (emit (Effect.ThrowAsJavaScriptException JsErrorKind.Error
              ("Failed to set action availability: " ++ message)))
          | .std_exception what =>
            some (emit (Effect.ThrowAsJavaScriptException JsErrorKind.Error what))
          | .unknown => none) r := by
    rfl
  rw [hrun]
  simp only [tryCatch, bind, Prog.bind, CreateActionRuntime_run]
  cases hreach : r.reachable
  · simp [registryApi, hreach, FAILED, emit]
  · rcases hb : h.from_bytes (Utf8Value name) with (m | m | _) | w
    · simp [registryApi, hreach, FAILED, emit, compute, Outcome.toRun, hb]
    · simp [registryApi, hreach, FAILED, emit, compute, Outcome.toRun, hb]
    · simp [registryApi, hreach, FAILED, emit, compute, Outcome.toRun, hb]
    · cases hrec : recognised w r.actions
      · simp [registryApi, hreach, FAILED, emit, compute, callS, Outcome.toRun, hb, hrec]
      · simp [registryApi, hreach, FAILED, emit, compute, callS, Outcome.toRun, hb, hrec]


/-- C9: against the action registry, when a call of `setActionAvailability`
with a name and a flag succeeds (it returns and throws no JavaScript error), a
second call with the same arguments leaves the registry in the state the
first call left it in; each of the two calls creates a runtime, sets the
flag, and closes the runtime, in that order. -/
theorem C9_SetActionAvailability_twice (h : Host) (name : String) (flag : Bool) (r : Registry)
    (hout : (SetActionAvailability registryApi h
      [Value.string name, Value.boolean flag] r).out = Except.ok ())
    (hno : ∀ k m, Effect.ThrowAsJavaScriptException k m ∉
      (SetActionAvailability registryApi h [Value.string name, Value.boolean flag] r).log) :
    (SetActionAvailability registryApi h [Value.string name, Value.boolean flag]
        (SetActionAvailability registryApi h
          [Value.string name, Value.boolean flag] r).state).state =
      (SetActionAvailability registryApi h [Value.string name, Value.boolean flag] r).state ∧
    ∃ w, h.from_bytes (Utf8Value name) = Except.ok w ∧
      (SetActionAvailability registryApi h [Value.string name, Value.boolean flag] r).log =
        [Effect.platform PlatformCall.CoCreateInstance,
         Effect.platform (PlatformCall.SetActionAvailability w flag),
         Effect.platform PlatformCall.Close] ∧
      (SetActionAvailability registryApi h [Value.string name, Value.boolean flag]
        (SetActionAvailability registryApi h
          [Value.string name, Value.boolean flag] r).state).log =
        [Effect.platform PlatformCall.CoCreateInstance,
         Effect.platform (PlatformCall.SetActionAvailability w flag),
         Effect.platform PlatformCall.Close] ∧
      (SetActionAvailability registryApi h [Value.string name, Value.boolean flag]
        (SetActionAvailability registryApi h
          [Value.string name, Value.boolean flag] r).state).out = Except.ok () := by
  obtain ⟨reachable, actions, openHandles⟩ := r
  have hrun := SetActionAvailability_registry_run h name flag ⟨reachable, actions, openHandles⟩
  simp only at hrun
  cases reachable
  · rw [hrun] at hno
    simp at hno
  · rcases hb : h.from_bytes (Utf8Value name) with (m | m | _) | w
    · rw [hrun] at hno
      simp [hb] at hno
    · rw [hrun] at hno
      simp [hb] at hno
    · rw [hrun] at hout
      simp [hb] at hout
    · cases hrec : recognised w actions
      · rw [hrun] at hno
        simp [hb, hrec] at hno
      · have h1 : SetActionAvailability registryApi h [Value.string name, Value.boolean flag]
            ⟨true, actions, openHandles⟩ =
            ⟨[Effect.platform PlatformCall.CoCreateInstance,
              Effect.platform (PlatformCall.SetActionAvailability w flag),
              Effect.platform PlatformCall.Close],
             Except.ok (),
             ⟨true, setFlag w flag actions, openHandles⟩⟩ := by
          rw [hrun]
          simp [hb, hrec]
        have h2 := SetActionAvailability_registry_run h name flag
          ⟨true, setFlag w flag actions, openHandles⟩
        simp only [hb, recognised_setFlag, hrec, setFlag_setFlag, if_true] at h2
        rw [h1]
        simp only
        rw [h2]
        exact ⟨rfl, w, rfl, rfl, rfl, rfl⟩

/-- Witness of C9 at `sampleRegistry` and the action `hi`. -/
theorem C9_SetActionAvailability_twice_witness :
    (SetActionAvailability registryApi throwingHost [Value.string "hi", Value.boolean true]
        (SetActionAvailability registryApi throwingHost
          [Value.string "hi", Value.boolean true] sampleRegistry).state).state =
      (SetActionAvailability registryApi throwingHost
        [Value.string "hi", Value.boolean true] sampleRegistry).state ∧
    ∃ w, throwingHost.from_bytes (Utf8Value "hi") = Except.ok w ∧
      (SetActionAvailability registryApi throwingHost
        [Value.string "hi", Value.boolean true] sampleRegistry).log =
        [Effect.platform PlatformCall.CoCreateInstance,
         Effect.platform (PlatformCall.SetActionAvailability w true),
         Effect.platform PlatformCall.Close] ∧
      (SetActionAvailability registryApi throwingHost [Value.string "hi", Value.boolean true]
        (SetActionAvailability registryApi throwingHost
          [Value.string "hi", Value.boolean true] sampleRegistry).state).log =
        [Effect.platform PlatformCall.CoCreateInstance,
         Effect.platform (PlatformCall.SetActionAvailability w true),
         Effect.platform PlatformCall.Close] ∧
      (SetActionAvailability registryApi throwingHost [Value.string "hi", Value.boolean true]
        (SetActionAvailability registryApi throwingHost
          [Value.string "hi", Value.boolean true] sampleRegistry).state).out = Except.ok () :=
  C9_SetActionAvailability_twice throwingHost "hi" true sampleRegistry (by decide)
    (by
      have hl : (SetActionAvailability registryApi throwingHost
          [Value.string "hi", Value.boolean true] sampleRegistry).log =
          [Effect.platform PlatformCall.CoCreateInstance,
           Effect.platform (PlatformCall.SetActionAvailability [104, 105] true),
           Effect.platform PlatformCall.Close] := by decide
      intro k m
      rw [hl]
      simp)

/-! ## Theorems: the toast XML -/

/-- The `catch` clauses of `ShowNotification` make no platform call. -/
theorem ShowNotification_platform_mem (h : Host) (p : ToastPlatform) (info : List Value)
    (c : PlatformCall) :
    Effect.platform c ∈ (ShowNotification h p info ()).log ↔
      Effect.platform c ∈ (ShowNotificationBody h p info ()).log := by
  unfold ShowNotification tryCatch
  cases hb : (ShowNotificationBody h p info ()).out with
  | ok u => simp [hb]
  | error e =>
    cases e with
    | abort => simp [hb]
    | raised e => cases e <;> simp [hb, emit]

/-- The platform calls of the `try` block of `ShowNotification` on two
strings: an initial segment of the five calls, which reaches `LoadXml` when
the notifier and the document are created. -/
theorem ShowNotificationBody_log (h : Host) (p : ToastPlatform) (title message : String) :
    ∃ n, (ShowNotificationBody h p [Value.string title, Value.string message] ()).log =
      ([Effect.platform PlatformCall.CreateToastNotifier,
        Effect.platform PlatformCall.XmlDocument,
        Effect.platform (PlatformCall.LoadXml
          (toastXml h.char_is_signed (Utf8Value title) (Utf8Value message))),
        Effect.platform PlatformCall.ToastNotification,
        Effect.platform PlatformCall.Show]).take (n + 1) ∧
      (p.CreateToastNotifier = Except.ok () → p.XmlDocument = Except.ok () → 3 ≤ n + 1) := by
  cases h1 : p.CreateToastNotifier with
  | error e =>
    exact ⟨0, by simp [ShowNotificationBody, arg, asStdString, library, call, Outcome.toRun, bind, Prog.bind, h1], by simp⟩
  | ok u1 =>
    cases h2 : p.XmlDocument with
    | error e =>
      exact ⟨1, by simp [ShowNotificationBody, arg, asStdString, library, call, Outcome.toRun, bind, Prog.bind, h1, h2], by simp⟩
    | ok u2 =>
      cases h3 : p.LoadXml (toastXml h.char_is_signed (Utf8Value title) (Utf8Value message)) with
      | error e =>
        exact ⟨2, by simp [ShowNotificationBody, arg, asStdString, library, call, Outcome.toRun, bind, Prog.bind, h1, h2, h3], by simp⟩
      | ok u3 =>
        cases h4 : p.ToastNotification with
        | error e =>
          exact ⟨3, by simp [ShowNotificationBody, arg, asStdString, library, call, Outcome.toRun, bind, Prog.bind, h1, h2, h3, h4], by simp⟩
        | ok u4 =>
          exact ⟨4, by simp [ShowNotificationBody, arg, asStdString, library, call, Outcome.toRun, bind, Prog.bind, h1, h2, h3, h4], by simp⟩

/-- The UTF-8 encoding of an ASCII character is its code. -/
theorem utf8EncodeChar_ascii (c : Char) (hc : c.toNat < 128) :
    (String.utf8EncodeChar c).map UInt8.toNat = [c.toNat] := by
  have hv : c.val.toNat ≤ 127 := by
    have : c.toNat = c.val.toNat := rfl
    omega
  have hle : c.val ≤ 0x7f := by
    rw [UInt32.le_def]
    simpa using hv
  simp only [String.utf8EncodeChar, hle, if_true, List.map_cons, List.map_nil]
  simp [Char.toNat, UInt32.toUInt8, UInt8.toNat, Nat.toUInt8, UInt8.ofNat]
  omega

/-- The UTF-8 bytes of an ASCII string are its characters. -/
theorem Utf8Value_ascii (s : String) (hs : ∀ c ∈ s.data, c.toNat < 128) :
    Utf8Value s = L s := by
  unfold Utf8Value L
  generalize s.data = cs at hs
  induction cs with
  | nil => rfl
  | cons c rest ih =>
    have hc : c.toNat < 128 := hs c (List.mem_cons_self c rest)
    have hrest : ∀ d ∈ rest, d.toNat < 128 := fun d hd => hs d (List.mem_cons_of_mem c hd)
    simp only [List.flatMap_cons, List.map_append, List.map_cons]
    rw [utf8EncodeChar_ascii c hc, ih hrest]
    rfl

/-- Widening leaves ASCII characters as they are, whatever the signedness of
`char`. -/
theorem wstring_of_range_ascii (signed : Bool) (s : String) (hs : ∀ c ∈ s.data, c.toNat < 128) :
    wstring_of_range signed (L s) = L s := by
  unfold wstring_of_range L
  rw [List.map_map]
  apply List.map_congr_left
  intro c hc
  have h1 : c.toNat < 128 := hs c hc
  have h2 : ¬ (128 ≤ c.toNat) := by omega
  have h3 : c.toNat % 65536 = c.toNat := Nat.mod_eq_of_lt (by omega)
  simp [wchar_of_char, h2, h3]

/-- A wide literal of a concatenation. -/
theorem L_append (a b : String) : L (a ++ b) = L a ++ L b := by
  simp [L]

/-- C10: for every title and message, the only XML that `showNotification`
hands to the parser is the opening markup, then `w(title)`, then
`</text><text>`, then `w(message)`, then the closing markup, where `w` maps
each byte of the UTF-8 encoding to one wide character on its own; it is handed
over whenever the notifier and the document are created. Nothing is escaped:
for ASCII title and message the document is the plain concatenation of the
five strings, so `<` and `&` in them are markup. -/
theorem C10_toast_xml_unescaped (h : Host) (p : ToastPlatform) (title message : String) :
    (∀ xml, Effect.platform (PlatformCall.LoadXml xml) ∈
        (ShowNotification h p [Value.string title, Value.string message] ()).log →
      xml = L "<toast><visual><binding template=\x27ToastGeneric\x27><text>"
        ++ (Utf8Value title).map (wchar_of_char h.char_is_signed)
        ++ L "</text><text>"
        ++ (Utf8Value message).map (wchar_of_char h.char_is_signed)
        ++ L "</text></binding></visual></toast>") ∧
    (p.CreateToastNotifier = Except.ok () → p.XmlDocument = Except.ok () →
      Effect.platform (PlatformCall.LoadXml
        (L "<toast><visual><binding template=\x27ToastGeneric\x27><text>"
        ++ (Utf8Value title).map (wchar_of_char h.char_is_signed)
        ++ L "</text><text>"
        ++ (Utf8Value message).map (wchar_of_char h.char_is_signed)
        ++ L "</text></binding></visual></toast>")) ∈
        (ShowNotification h p [Value.string title, Value.string message] ()).log) ∧
    ((∀ c ∈ title.data, c.toNat < 128) → (∀ c ∈ message.data, c.toNat < 128) →
      L "<toast><visual><binding template=\x27ToastGeneric\x27><text>"
        ++ (Utf8Value title).map (wchar_of_char h.char_is_signed)
        ++ L "</text><text>"
        ++ (Utf8Value message).map (wchar_of_char h.char_is_signed)
        ++ L "</text></binding></visual></toast>" =
      L ("<toast><visual><binding template=\x27ToastGeneric\x27><text>" ++ title
        ++ "</text><text>" ++ message ++ "</text></binding></visual></toast>")) := by
  obtain ⟨n, hlog, hn⟩ := ShowNotificationBody_log h p title message
  refine ⟨?_, ?_, ?_⟩
  · intro xml hmem
    rw [ShowNotification_platform_mem, hlog] at hmem
    have hmem2 := List.mem_of_mem_take hmem
    simp at hmem2
    rw [hmem2]
    rfl
  · intro h1 h2
    rw [ShowNotification_platform_mem, hlog]
    have h3 := hn h1 h2
    have : n + 1 = 3 + (n - 2) := by omega
    rw [this]
    have hx : toastXml h.char_is_signed (Utf8Value title) (Utf8Value message) =
        L "<toast><visual><binding template=\x27ToastGeneric\x27><text>"
        ++ (Utf8Value title).map (wchar_of_char h.char_is_signed)
        ++ L "</text><text>"
        ++ (Utf8Value message).map (wchar_of_char h.char_is_signed)
        ++ L "</text></binding></visual></toast>" := rfl
    rw [← hx]
    rcases Nat.lt_or_ge (n - 2) 1 with h0 | h0
    · have : n - 2 = 0 := by omega
      simp [this]
    · rcases Nat.lt_or_ge (n - 2) 2 with h0b | h0b
      · have : n - 2 = 1 := by omega
        simp [this]
      · have : (3 + (n - 2)) = 5 + (n - 4) := by omega
        rw [this]
        simp [List.take_of_length_le]
  · intro ht hm
    rw [Utf8Value_ascii title ht, Utf8Value_ascii message hm]
    have e1 := wstring_of_range_ascii h.char_is_signed title ht
    have e2 := wstring_of_range_ascii h.char_is_signed message hm
    unfold wstring_of_range at e1 e2
    rw [e1, e2]
    simp only [L_append]

/-- Witness of C10: the title `a<b&c` and the message `</text>` are spliced
into the document as they are. -/
theorem C10_toast_xml_witness :
    L "<toast><visual><binding template=\x27ToastGeneric\x27><text>"
        ++ (Utf8Value "a<b&c").map (wchar_of_char throwingHost.char_is_signed)
        ++ L "</text><text>"
        ++ (Utf8Value "</text>").map (wchar_of_char throwingHost.char_is_signed)
        ++ L "</text></binding></visual></toast>" =
      L ("<toast><visual><binding template=\x27ToastGeneric\x27><text>" ++ "a<b&c"
        ++ "</text><text>" ++ "</text>" ++ "</text></binding></visual></toast>") :=
  (C10_toast_xml_unescaped throwingHost toastOk "a<b&c" "</text>").2.2 (by decide) (by decide)

end WinappCli
